import Mathlib

/-!
# Task service of `kylycht/md`: escrow settlement and task lifecycle

A shallow embedding of `model/model.go` and `services/task/task.go`.

* Go `int64` values are integers with explicit wrap-around (`wrapInt64`).
* The relational store is a record of four tables (lists of rows, in the
  order the store returns them).  A transaction works on a copy of the
  store: `Commit` installs the copy, `Rollback` drops it.
* The message bus is an outbox: every `Publish` appends `(address, message)`
  and returns nil.  The value a handler returns goes to the bus library,
  which discards it; it is kept in `Outcome.ret`.
* Everything the handlers obtain from outside (the reply of the balance
  lookup, the JSON codec, the clock, fresh identifiers, and the errors the
  database driver may report) is supplied by an `Env` value.  The driver
  errors are not derived from the schema: an `Env` may report any statement
  as failed, so the handlers are covered on every result the `database/sql`
  interface can hand them.
* Every handler run records the database calls it makes, with the statement
  text and the bound arguments, in `Outcome.log`.
-/

namespace MD

/-! ## Machine integers -/

/-- Two's-complement reduction of an integer to the `int64` range. -/
def wrapInt64 (x : Int) : Int :=
  (x + 9223372036854775808) % 18446744073709551616 - 9223372036854775808

/-- Go `a - b` on `int64`. -/
def subInt64 (a b : Int) : Int := wrapInt64 (a - b)

/-- Go `a + b` on `int64`. -/
def addInt64 (a b : Int) : Int := wrapInt64 (a + b)

/-- The value is representable as an `int64`. -/
def isInt64 (x : Int) : Prop := -9223372036854775808 ≤ x ∧ x < 9223372036854775808

instance (x : Int) : Decidable (isInt64 x) := by unfold isInt64; infer_instance

/-- Go `len(s)` on a string: the number of bytes. -/
def len (s : String) : Nat := s.utf8ByteSize

/-! ## `model/model.go` -/

namespace model

/-- `ErrInvalidID.Error()`. -/
def ErrInvalidID : String := "invalid ID"

/-- `TaskStatus` is a Go string type. -/
abbrev TaskStatus := String

/-- `PaymentStatus` is a Go string type. -/
abbrev PaymentStatus := String

def Open : TaskStatus := "open"
def Started : TaskStatus := "started"
def Completed : TaskStatus := "completed"
def Closed : TaskStatus := "closed"
def Abandoned : TaskStatus := "abondoned"

def Locked : PaymentStatus := "locked"
def Pending : PaymentStatus := "pending"
def Canceled : PaymentStatus := "canceled"
def Loaded : PaymentStatus := "loaded"
def Paid : PaymentStatus := "paid"

/-- `model.Task`; times are clock readings, `pq.NullTime` is an `Option`. -/
structure Task where
  ID : String
  ClientID : String
  FreelancerID : String
  Description : String
  Fee : Int
  Deadline : Int
  Status : TaskStatus
  StartedAt : Option Nat
  DeletedAt : Option Nat
  UpdatedAt : Option Nat
  CreatedAt : Nat
  deriving DecidableEq, Repr

/-- `model.Freelancer`; `sql.NullString` and `sql.NullInt64` are `Option`s. -/
structure Freelancer where
  ID : String
  Description : Option String
  Details : Option String
  Email : String
  Balance : Option Int
  DeletedAt : Option Nat
  deriving DecidableEq, Repr

/-- `model.Client`. -/
structure Client where
  ID : String
  Email : String
  Balance : Int
  DeletedAt : Option Nat
  deriving DecidableEq, Repr

/-- `model.NATSMsg`; `Data` is the raw JSON text. -/
structure NATSMsg where
  Success : Bool
  Message : String
  Data : String
  deriving DecidableEq, Repr

/-- `model.NewTask`, with the fresh identifier and the clock reading passed in. -/
def NewTask (newID : String) (now : Nat) (deadline : Int) (fee : Int)
    (clientID description : String) : Task :=
  { ID := newID
    CreatedAt := now
    Status := Open
    Fee := fee
    ClientID := clientID
    Description := description
    Deadline := deadline
    FreelancerID := ""
    StartedAt := none
    DeletedAt := none
    UpdatedAt := none }

end model

/-! ## The store -/

/-- A row of table `BILLING` (schema in `main.go`): `freelancer_id` and
`paid_date` are NULL until settlement. -/
structure BillingRow where
  ID : String
  ClientID : String
  FreelancerID : Option String
  PaidDate : Option Nat
  Status : model.PaymentStatus
  Amount : Int
  TaskID : String
  deriving DecidableEq, Repr

/-- The four tables of the shared database. -/
structure Store where
  client : List model.Client
  freelancer : List model.Freelancer
  billing : List BillingRow
  task : List model.Task
  deriving DecidableEq, Repr

/-- A value bound to a statement placeholder. -/
inductive Arg where
  | int (v : Int)
  | str (v : String)
  | time (v : Nat)
  | nullTime (v : Option Nat)
  deriving DecidableEq, Repr

/-- One call on the database handle or on a transaction. -/
inductive DbOp where
  | begin
  | commit
  | rollback
  | exec (query : String) (args : List Arg)
  | queryRow (query : String) (args : List Arg)
  | get (query : String) (args : List Arg)
  | select (query : String) (args : List Arg)
  deriving DecidableEq, Repr

/-- What the driver does with one `Exec`. -/
inductive Fault where
  /-- The statement runs. -/
  | none
  /-- `Exec` returns an error and nothing is applied. -/
  | execErr (msg : String)
  /-- The statement runs but `RowsAffected` returns an error. -/
  | rowsErr (msg : String)
  /-- `Exec` returns no error, nothing is applied, `RowsAffected` is `(0, nil)`. -/
  | noRows
  deriving DecidableEq, Repr

/-- The pair `(sql.Result, error)` of an `Exec`, with `RowsAffected` unfolded. -/
structure ExecResult where
  err : Option String
  rows : Nat
  rowsErr : Option String
  deriving DecidableEq, Repr

/-- Run a statement (a function giving the new store and the number of rows
it touched) under a driver fault. -/
def exec (f : Fault) (stmt : Store → Store × Nat) (s : Store) : Store × ExecResult :=
  match f with
  | .none => ((stmt s).1, { err := none, rows := (stmt s).2, rowsErr := none })
  | .execErr m => (s, { err := some m, rows := 0, rowsErr := none })
  | .rowsErr m => ((stmt s).1, { err := none, rows := (stmt s).2, rowsErr := some m })
  | .noRows => (s, { err := none, rows := 0, rowsErr := none })

/-- `sql.ErrNoRows.Error()`. -/
def ErrNoRows : String := "sql: no rows in result set"

/-- Everything a handler obtains from outside the program. -/
structure Env where
  /-- `jsonConn.Request(subject, payload, &replyMsg, timeout)`: an error
  (for instance a timeout) or the decoded reply. -/
  request : String → String → Except String model.NATSMsg
  /-- `json.Unmarshal(data, &client)`. -/
  unmarshalClient : String → Except String model.Client
  /-- `json.Marshal(&task)`. -/
  marshalTask : model.Task → Except String String
  /-- `json.Marshal(&tasks)`. -/
  marshalTasks : List model.Task → Except String String
  /-- `time.Now()`. -/
  now : Nat
  /-- `model.NewID()`. -/
  newID : String
  /-- Error of `db.Begin()`. -/
  begin : Option String
  /-- Error of `tx.Commit()`; the handlers ignore it. -/
  commit : Option String
  /-- `UPDATE client SET balance`. -/
  withdraw : Fault
  /-- `INSERT INTO billing`. -/
  lock : Fault
  /-- `INSERT INTO task`. -/
  insertTask : Fault
  /-- `SELECT * FROM task WHERE id`. -/
  getTask : Option String
  /-- `SELECT id FROM billing WHERE task_id`. -/
  selectBilling : Option String
  /-- `UPDATE billing SET status`. -/
  payBilling : Fault
  /-- `SELECT balance FROM freelancer WHERE id`. -/
  selectFreelancer : Option String
  /-- `UPDATE freelancer SET balance`. -/
  credit : Fault
  /-- `UPDATE task SET ... WHERE ID`. -/
  updateTask : Fault
  /-- `UPDATE task SET deleted_at`. -/
  deleteTask : Fault
  /-- `SELECT * FROM task WHERE client_id`. -/
  listTasks : Option String

/-- How a handler ends. -/
inductive Ret where
  /-- Returns `nil` (or has no result). -/
  | nil
  /-- Returns a non-nil error. -/
  | error (msg : String)
  /-- Calls `Error()` on a nil error value. -/
  | nilDeref
  deriving DecidableEq, Repr

/-- The observable result of one handler run. -/
structure Outcome where
  /-- The committed store afterwards. -/
  db : Store
  /-- The messages published, oldest first, each with its address. -/
  published : List (String × model.NATSMsg)
  /-- The database calls made, oldest first. -/
  log : List DbOp
  ret : Ret
  deriving DecidableEq, Repr

/-- Install the transaction copy unless `Commit` fails. -/
def commitTx (env : Env) (db tx : Store) : Store :=
  match env.commit with
  | none => tx
  | some _ => db

/-- A reply `NATSMsg{Success: false, Message: msg}`. -/
def failMsg (msg : String) : model.NATSMsg := { Success := false, Message := msg, Data := "" }

/-- The reply `NATSMsg{Success: true}`. -/
def okMsg : model.NATSMsg := { Success := true, Message := "", Data := "" }

/-! ## Statements of `services/task/task.go` -/

/-- `UPDATE client SET balance=$1 WHERE id=$2`. -/
def withdrawFundsStmt (balance : Int) (id : String) (s : Store) : Store × Nat :=
  ({ s with client := s.client.map fun c => if c.ID = id then { c with Balance := balance } else c },
   s.client.countP fun c => c.ID = id)

/-- `INSERT INTO billing(id, client_id, task_id, amount, status) VALUES($1,$2,$3,$4,$5)`. -/
def lockFundsStmt (id clientID taskID : String) (amount : Int) (status : model.PaymentStatus)
    (s : Store) : Store × Nat :=
  ({ s with billing := s.billing ++
      [{ ID := id, ClientID := clientID, FreelancerID := none, PaidDate := none,
         Status := status, Amount := amount, TaskID := taskID }] }, 1)

/-- `INSERT INTO task (id, client_id, freelancer_id, description, fee, deadline,
created_at, status) VALUES(...)`: the three remaining columns are NULL. -/
def insertTaskStmt (t : model.Task) (s : Store) : Store × Nat :=
  ({ s with task := s.task ++
      [{ t with StartedAt := none, DeletedAt := none, UpdatedAt := none }] }, 1)

/-- `UPDATE billing SET status=$1, paid_date=$2, freelancer_id=$3 WHERE id=$4`. -/
def payBillingStmt (status : model.PaymentStatus) (paidDate : Nat) (freelancerID id : String)
    (s : Store) : Store × Nat :=
  ({ s with billing := s.billing.map fun r =>
      if r.ID = id then
        { r with Status := status, PaidDate := some paidDate, FreelancerID := some freelancerID }
      else r },
   s.billing.countP fun r => r.ID = id)

/-- `UPDATE freelancer SET balance=$1 WHERE id=$2`. -/
def creditStmt (total : Int) (id : String) (s : Store) : Store × Nat :=
  ({ s with freelancer := s.freelancer.map fun f =>
      if f.ID = id then { f with Balance := some total } else f },
   s.freelancer.countP fun f => f.ID = id)

/-- `SELECT id FROM billing WHERE task_id=$1` read by `QueryRow(...).Scan(&txID)`:
the first matching row, or `sql.ErrNoRows`. -/
def selectBillingID (fault : Option String) (taskID : String) (s : Store) : Except String String :=
  match fault with
  | some e => .error e
  | none =>
    match s.billing.find? fun r => r.TaskID = taskID with
    | some r => .ok r.ID
    | none => .error ErrNoRows

/-- `SELECT balance FROM freelancer WHERE id=$1` read by `QueryRow(...).Scan(&b)`
into a `sql.NullInt64`. -/
def selectFreelancerBalance (fault : Option String) (id : String) (s : Store) :
    Except String (Option Int) :=
  match fault with
  | some e => .error e
  | none =>
    match s.freelancer.find? fun f => f.ID = id with
    | some f => .ok f.Balance
    | none => .error ErrNoRows

namespace task

def withdrawFunds : String := "UPDATE client SET balance=$1 WHERE id=$2"

def lockFunds : String :=
  "INSERT INTO billing(id, client_id, task_id, amount, status) VALUES($1,$2,$3,$4,$5)"

def insertTask : String :=
  "INSERT INTO task (id, client_id, freelancer_id, description, fee, deadline, created_at, status) " ++
    "VALUES($1, $2, $3, $4, $5, $6, $7, $8)"

/-- The debit of `Service.New`: `tx.Exec(withdrawFunds, balance, client.ID)` with
`balance := client.Balance - t.Fee`. -/
def Service.New.debit (env : Env) (tx : Store) (client : model.Client) (t : model.Task) :
    Store × ExecResult :=
  exec env.withdraw (withdrawFundsStmt (subInt64 client.Balance t.Fee) client.ID) tx

/-- The escrow insert of `Service.New`:
`tx.Exec(lockFunds, txID, t.ClientID, t.ID, t.Fee, model.Locked)`. -/
def Service.New.escrow (env : Env) (tx : Store) (t : model.Task) : Store × ExecResult :=
  exec env.lock (lockFundsStmt env.newID t.ClientID t.ID t.Fee model.Locked) tx

/-- The task insert of `Service.New`. -/
def Service.New.create (env : Env) (tx : Store) (t : model.Task) : Store × ExecResult :=
  exec env.insertTask (insertTaskStmt t) tx

/-- `Service.New`: the handler of `task.add`.  `db` is the committed store. -/
def Service.New (env : Env) (db : Store) (_subject reply : String) (t : model.Task) : Outcome :=
  match env.request "client.get" t.ClientID with
  | .error e => { db := db, published := [], log := [], ret := .error e }
  | .ok replyMsg =>
    if !replyMsg.Success then
      { db := db, published := [(reply, failMsg replyMsg.Message)], log := [], ret := .nil }
    else
      match env.unmarshalClient replyMsg.Data with
      | .error e => { db := db, published := [(reply, failMsg e)], log := [], ret := .nil }
      | .ok client =>
        -- client does not have enough money to create task for Fee specified
        if subInt64 client.Balance t.Fee < 0 then
          { db := db, published := [], log := [], ret := .error "Insufficient funds" }
        else
          -- tx begin
          match env.begin with
          | some e =>
            { db := db, published := [(reply, failMsg e)], log := [.begin], ret := .nil }
          | none =>
            -- withdraw client money
            let balance := subInt64 client.Balance t.Fee
            let op1 := DbOp.exec withdrawFunds [.int balance, .str client.ID]
            let r1 := Service.New.debit env db client t
            match r1.2.err with
            | some e =>
              { db := db, published := [(reply, failMsg e)],
                log := [.begin, op1, .rollback], ret := .nil }
            | none =>
              if r1.2.rows = 0 || r1.2.rowsErr.isSome then
                { db := db, published := [(reply, failMsg "no rows effected")],
                  log := [.begin, op1, .rollback], ret := .nil }
              else
                let txID := env.newID
                -- lock funds from client account
                let op2 := DbOp.exec lockFunds
                  [.str txID, .str t.ClientID, .str t.ID, .int t.Fee, .str model.Locked]
                let r2 := Service.New.escrow env r1.1 t
                match r2.2.err with
                | some e =>
                  { db := db, published := [(reply, failMsg e)],
                    log := [.begin, op1, op2, .rollback], ret := .nil }
                | none =>
                  -- create task
                  let op3 := DbOp.exec insertTask
                    [.str t.ID, .str t.ClientID, .str t.FreelancerID, .str t.Description,
                     .int t.Fee, .int t.Deadline, .time t.CreatedAt, .str t.Status]
                  let r3 := Service.New.create env r2.1 t
                  match r3.2.err with
                  | some e =>
                    { db := db, published := [(reply, failMsg e)],
                      log := [.begin, op1, op2, op3, .rollback], ret := .nil }
                  | none =>
                    if r3.2.rows = 0 || r3.2.rowsErr.isSome then
                      -- the message is `err.Error()` of the error of `RowsAffected`
                      match r3.2.rowsErr with
                      | some e =>
                        { db := db, published := [(reply, failMsg e)],
                          log := [.begin, op1, op2, op3, .rollback], ret := .nil }
                      | none =>
                        { db := db, published := [],
                          log := [.begin, op1, op2, op3, .rollback], ret := .nilDeref }
                    else
                      { db := commitTx env db r3.1, published := [(reply, okMsg)],
                        log := [.begin, op1, op2, op3, .commit], ret := .nil }

def getTaskQuery : String := "SELECT * FROM task WHERE id = $1"

/-- `Service.getTaskByID`: the first row with the id, or the error of `db.Get`. -/
def Service.getTaskByID (env : Env) (db : Store) (id : String) : Except String model.Task :=
  match env.getTask with
  | some e => .error e
  | none =>
    match db.task.find? fun r => r.ID = id with
    | some r => .ok r
    | none => .error ErrNoRows

def selectBillingQuery : String := "SELECT id FROM billing WHERE task_id=$1"

def payBillingQuery : String :=
  "UPDATE billing SET status=$1, paid_date=$2, freelancer_id=$3 WHERE id=$4"

def selectFreelancerQuery : String := "SELECT balance FROM freelancer WHERE id=$1"

def creditQuery : String := "UPDATE freelancer SET balance=$1 WHERE id=$2"

/-- What `transferFunds` leaves behind: the committed store, the database
calls it made, and the error it returns (`none` for `nil`). -/
structure TxResult where
  db : Store
  log : List DbOp
  err : Option String
  deriving DecidableEq, Repr

/-- `Service.transferFunds`. -/
def Service.transferFunds (env : Env) (db : Store) (t : model.Task) : TxResult :=
  match env.begin with
  | some e => { db := db, log := [.begin], err := some e }
  | none =>
    let op1 := DbOp.queryRow selectBillingQuery [.str t.ID]
    match selectBillingID env.selectBilling t.ID db with
    | .error e => { db := db, log := [.begin, op1, .rollback], err := some e }
    | .ok txID =>
      let op2 := DbOp.exec payBillingQuery
        [.str model.Paid, .time env.now, .str t.FreelancerID, .str txID]
      let r2 := exec env.payBilling (payBillingStmt model.Paid env.now t.FreelancerID txID) db
      match r2.2.err with
      | some e => { db := db, log := [.begin, op1, op2, .rollback], err := some e }
      | none =>
        if r2.2.rows = 0 || r2.2.rowsErr.isSome then
          -- returns the error of `RowsAffected`, which is nil when only `c == 0`
          { db := db, log := [.begin, op1, op2, .rollback], err := r2.2.rowsErr }
        else
          let op3 := DbOp.queryRow selectFreelancerQuery [.str t.FreelancerID]
          match selectFreelancerBalance env.selectFreelancer t.FreelancerID r2.1 with
          | .error e => { db := db, log := [.begin, op1, op2, op3, .rollback], err := some e }
          | .ok b =>
            -- `b.Int64` is 0 when the column is NULL
            let total := addInt64 (b.getD 0) t.Fee
            let op4 := DbOp.exec creditQuery [.int total, .str t.FreelancerID]
            let r4 := exec env.credit (creditStmt total t.FreelancerID) r2.1
            match r4.2.err with
            | some e =>
              { db := db, log := [.begin, op1, op2, op3, op4, .rollback], err := some e }
            | none =>
              if r4.2.rows = 0 || r4.2.rowsErr.isSome then
                { db := db, log := [.begin, op1, op2, op3, op4, .rollback], err := r4.2.rowsErr }
              else
                { db := commitTx env db r4.1, log := [.begin, op1, op2, op3, op4, .commit],
                  err := none }

/-- The local variables `updateS`, `position` and `args` of `Service.Update`,
with `sets`, the SET clause written so far read back as pairs of a column
and the number of its placeholder. -/
structure Builder where
  updateS : String
  position : Nat
  args : List Arg
  sets : List (String × Nat)
  deriving DecidableEq, Repr

def update : String := "UPDATE task SET "

/-- The state after `updateS.WriteString(update)`. -/
def Builder.init : Builder := { updateS := update, position := 1, args := [], sets := [] }

/-- `if position > 1 { updateS.WriteString(", ") }`. -/
def Builder.comma (b : Builder) : Builder :=
  if b.position > 1 then { b with updateS := b.updateS ++ ", " } else b

/-- `updateS.WriteString(fmt.Sprintf(col + "=$%d" + suffix, position))`. -/
def Builder.write (b : Builder) (col suffix : String) : Builder :=
  { b with updateS := b.updateS ++ (col ++ "=$" ++ toString b.position ++ suffix),
           sets := b.sets ++ [(col, b.position)] }

/-- `position++; args = append(args, v)`. -/
def Builder.bind (b : Builder) (v : Arg) : Builder :=
  { b with position := b.position + 1, args := b.args ++ [v] }

/-- Assignment of one column of table `TASK`. -/
def setColumn (col : String) (v : Arg) (r : model.Task) : model.Task :=
  if col = "fee" then
    match v with | .int n => { r with Fee := n } | _ => r
  else if col = "status" then
    match v with | .str x => { r with Status := x } | _ => r
  else if col = "description" then
    match v with | .str x => { r with Description := x } | _ => r
  else if col = "freelancer_id" then
    match v with | .str x => { r with FreelancerID := x } | _ => r
  else if col = "deadline" then
    match v with | .int n => { r with Deadline := n } | _ => r
  else if col = "updated_at" then
    match v with | .nullTime x => { r with UpdatedAt := x } | _ => r
  else r

/-- The row after `SET col=$n, ...` with the placeholders looked up in `args`. -/
def applySets (sets : List (String × Nat)) (args : List Arg) (r : model.Task) : model.Task :=
  sets.foldl (fun acc c =>
    match args[c.2 - 1]? with
    | some v => setColumn c.1 v acc
    | none => acc) r

/-- `UPDATE task SET <sets> WHERE ID=$whereIdx` with arguments `args`. -/
def updateTaskStmt (sets : List (String × Nat)) (whereIdx : Nat) (args : List Arg)
    (s : Store) : Store × Nat :=
  match args[whereIdx - 1]? with
  | some (.str id) =>
    ({ s with task := s.task.map fun r => if r.ID = id then applySets sets args r else r },
     s.task.countP fun r => r.ID = id)
  | _ => (s, 0)

/-- The deferred function of `Service.Update`, run at every return. -/
def Service.Update.deferred (reply : String) (err : Option String) :
    List (String × model.NATSMsg) :=
  match err with
  | some e => [(reply, failMsg e)]
  | none => [(reply, okMsg)]

/-- The fee step of `Service.Update`: `if t.Fee > 0 { ... }`, starting from
the builder holding `"UPDATE task SET "`. -/
def Service.Update.feeStep (t : model.Task) : Builder :=
  if t.Fee > 0 then (Builder.init.write "fee" "").bind (.int t.Fee) else Builder.init

/-- The description, freelancer and deadline steps of `Service.Update`. -/
def Service.Update.fields (t : model.Task) (b : Builder) : Builder :=
  let b3 :=
    if len t.Description > 0 then
      (b.comma.write "description" "").bind (.str t.Description)
    else b
  let b4 :=
    if len t.FreelancerID > 0 then
      (b3.comma.write "freelancer_id" "").bind (.str t.FreelancerID)
    else b3
  if t.Deadline > 0 then
    (b4.comma.write "deadline" "").bind (.int t.Deadline)
  else b4

/-- The `updated_at` step of `Service.Update`, with
`t.UpdatedAt = pq.NullTime{Time: time.Now(), Valid: true}`. -/
def Service.Update.stamp (env : Env) (b : Builder) : Builder :=
  (b.comma.write "updated_at" " ").bind (.nullTime (some env.now))

/-- `Service.Update` from the description field on.  `db` and `log` are the
store and the database calls so far, and `err` the function-level `err`. -/
def Service.Update.rest (env : Env) (db : Store) (reply : String) (t : model.Task)
    (b : Builder) (log : List DbOp) (err : Option String) : Outcome :=
  let b5 := Service.Update.fields t b
  -- nothing to update
  if update = b5.updateS then
    { db := db, published := Service.Update.deferred reply err, log := log, ret := .nil }
  else
    let b6 := Service.Update.stamp env b5
    let text := b6.updateS ++ ("WHERE ID=$" ++ toString b6.position)
    let args := b6.args ++ [.str t.ID]
    -- the error of this `Exec` is bound to a new `err` local to the `if`
    let r := exec env.updateTask (updateTaskStmt b6.sets b6.position args) db
    { db := r.1, published := Service.Update.deferred reply err,
      log := log ++ [.exec text args], ret := .nil }

/-- `Service.Update`: the handler of `task.update`.

The function-level `err` is assigned only by `_, err = updateS.WriteString(", ")`,
and `strings.Builder.WriteString` always returns a nil error; every other
error is bound with `:=` to a new variable of an inner scope. -/
def Service.Update (env : Env) (db : Store) (_subject reply : String) (t : model.Task) :
    Outcome :=
  let err : Option String := none
  -- check if fee is set
  let b1 := Service.Update.feeStep t
  if len t.Status > 0 then
    let b2 := b1.comma.write "status" ""
    if t.Status = model.Closed then
      -- transfer funds to freelancer
      let op := DbOp.get getTaskQuery [.str t.ID]
      match Service.getTaskByID env db t.ID with
      | .error _ =>
        { db := db, published := Service.Update.deferred reply err, log := [op], ret := .nil }
      | .ok task =>
        let r := Service.transferFunds env db task
        match r.err with
        | some e =>
          { db := r.db,
            published := [(reply, failMsg e)] ++ Service.Update.deferred reply err,
            log := op :: r.log, ret := .nil }
        | none =>
          Service.Update.rest env r.db reply t (b2.bind (.str t.Status)) (op :: r.log) err
    else
      -- `case model.Abandoned:` has an empty body
      Service.Update.rest env db reply t (b2.bind (.str t.Status)) [] err
  else
    Service.Update.rest env db reply t b1 [] err

def delS : String := "UPDATE task SET deleted_at=$1 WHERE id=$2"

/-- `UPDATE task SET deleted_at=$1 WHERE id=$2`. -/
def deleteTaskStmt (deletedAt : Nat) (id : String) (s : Store) : Store × Nat :=
  ({ s with task := s.task.map fun r =>
      if r.ID = id then { r with DeletedAt := some deletedAt } else r },
   s.task.countP fun r => r.ID = id)

/-- `Service.Delete`: the handler of `task.delete`, a soft delete. -/
def Service.Delete (env : Env) (db : Store) (_subject reply id : String) : Outcome :=
  if len id ≠ 36 then
    { db := db, published := [(reply, failMsg model.ErrInvalidID)], log := [], ret := .nil }
  else
    let op := DbOp.exec delS [.time env.now, .str id]
    let r := exec env.deleteTask (deleteTaskStmt env.now id) db
    match r.2.err with
    | some e => { db := r.1, published := [(reply, failMsg e)], log := [op], ret := .nil }
    | none => { db := r.1, published := [(reply, okMsg)], log := [op], ret := .nil }

/-- `Service.Get`: the handler of `task.get`. -/
def Service.Get (env : Env) (db : Store) (_subject reply id : String) : Outcome :=
  if len id ≠ 36 then
    { db := db, published := [(reply, failMsg model.ErrInvalidID)], log := [], ret := .nil }
  else
    let op := DbOp.get getTaskQuery [.str id]
    match Service.getTaskByID env db id with
    | .error e => { db := db, published := [(reply, failMsg e)], log := [op], ret := .nil }
    | .ok task =>
      match env.marshalTask task with
      | .error e => { db := db, published := [(reply, failMsg e)], log := [op], ret := .nil }
      | .ok d =>
        { db := db, published := [(reply, { Success := true, Message := "", Data := d })],
          log := [op], ret := .nil }

def listQuery : String :=
  "SELECT * FROM task WHERE client_id = $1 AND deleted_at IS NULL ORDER BY created_at ASC"

/-- The rows of `listQuery`: the tasks of the client that are not soft-deleted,
by ascending `created_at` (rows with equal times keep their stored order). -/
def selectTasks (clientID : String) (s : Store) : List model.Task :=
  (s.task.filter fun r => r.ClientID = clientID ∧ r.DeletedAt = none).insertionSort
    fun a b => a.CreatedAt ≤ b.CreatedAt

/-- `Service.List`: the handler of `task.list`. -/
def Service.List (env : Env) (db : Store) (_subject reply clientID : String) : Outcome :=
  let op := DbOp.select listQuery [.str clientID]
  match env.listTasks with
  | some e => { db := db, published := [(reply, failMsg e)], log := [op], ret := .nil }
  | none =>
    match env.marshalTasks (selectTasks clientID db) with
    | .error e => { db := db, published := [(reply, failMsg e)], log := [op], ret := .nil }
    | .ok d =>
      { db := db, published := [(reply, { Success := true, Message := "", Data := d })],
        log := [op], ret := .nil }

/-! ## Vocabulary of the statements -/

/-- The balance lookup of `Service.New` replies success with `client`. -/
def LookupOK (env : Env) (t : model.Task) (client : model.Client) : Prop :=
  ∃ msg, env.request "client.get" t.ClientID = .ok msg ∧ msg.Success = true ∧
    env.unmarshalClient msg.Data = .ok client

/-- The handler published a reply with `success=true`. -/
def Succeeded (o : Outcome) : Prop := ∃ p ∈ o.published, p.2.Success = true

instance (o : Outcome) : Decidable (Succeeded o) := by unfold Succeeded; infer_instance

/-- Every store step of a closing task-update succeeds: the task lookup, the
begin, both reads and both writes of the settlement, its commit, and the
final update of the task row. -/
def CloseStepsOK (env : Env) : Prop :=
  env.getTask = none ∧ env.begin = none ∧ env.selectBilling = none ∧
  env.payBilling = Fault.none ∧ env.selectFreelancer = none ∧ env.credit = Fault.none ∧
  env.commit = none ∧ env.updateTask = Fault.none

/-- The builder of `Service.Update` once the fee and status steps are done. -/
def Service.Update.afterStatus (t : model.Task) : Builder :=
  if len t.Status > 0 then
    ((Service.Update.feeStep t).comma.write "status" "").bind (.str t.Status)
  else Service.Update.feeStep t

/-- The task row `r` after a partial update with payload `t` at time `now`:
a string field of the payload replaces the stored one when it is non-empty,
a numeric field when it is positive, and `updated_at` is set. -/
def updatedRow (t : model.Task) (now : Nat) (r : model.Task) : model.Task :=
  { r with
    Fee := if t.Fee > 0 then t.Fee else r.Fee
    Status := if len t.Status > 0 then t.Status else r.Status
    Description := if len t.Description > 0 then t.Description else r.Description
    FreelancerID := if len t.FreelancerID > 0 then t.FreelancerID else r.FreelancerID
    Deadline := if t.Deadline > 0 then t.Deadline else r.Deadline
    UpdatedAt := some now }

/-- The billing row `r` after settlement for freelancer `fid` at time `now`. -/
def paidRow (fid : String) (now : Nat) (r : BillingRow) : BillingRow :=
  { r with Status := model.Paid, PaidDate := some now, FreelancerID := some fid }

/-- At least one updatable field of the payload is set: a numeric field is
set when it is positive, a string field when it is non-empty. -/
def FieldSet (t : model.Task) : Prop :=
  t.Fee > 0 ∨ len t.Status > 0 ∨ len t.Description > 0 ∨ len t.FreelancerID > 0 ∨
    t.Deadline > 0

instance (t : model.Task) : Decidable (FieldSet t) := by unfold FieldSet; infer_instance

/-- The builder of `Service.Update` when it reaches `db.Exec`: all steps done
except the WHERE clause. -/
def builtSet (env : Env) (t : model.Task) : Builder :=
  Service.Update.stamp env (Service.Update.fields t (Service.Update.afterStatus t))

/-- The statement text `Service.Update` passes to `db.Exec`. -/
def builtText (env : Env) (t : model.Task) : String :=
  (builtSet env t).updateS ++
    ("WHERE ID=$" ++ toString (builtSet env t).position)

/-- The arguments `Service.Update` passes to `db.Exec`. -/
def builtArgs (env : Env) (t : model.Task) : List Arg :=
  (builtSet env t).args ++ [.str t.ID]

/-- The assignments the partial-update protocol prescribes for payload `t`, in
the order fee, status, description, freelancer id, deadline, each present
when the field is set, followed by `updated_at`. -/
def setFields (env : Env) (t : model.Task) : List (String × Arg) :=
  (if t.Fee > 0 then [("fee", Arg.int t.Fee)] else []) ++
  (if len t.Status > 0 then [("status", Arg.str t.Status)] else []) ++
  (if len t.Description > 0 then [("description", Arg.str t.Description)] else []) ++
  (if len t.FreelancerID > 0 then [("freelancer_id", Arg.str t.FreelancerID)] else []) ++
  (if t.Deadline > 0 then [("deadline", Arg.int t.Deadline)] else []) ++
  [("updated_at", Arg.nullTime (some env.now))]

/-- The text in the builder starts with `"UPDATE task SET "`. -/
def Builder.Prefixed (b : Builder) : Prop := ∃ x, b.updateS = update ++ x

/-- The statement text the alignment claim describes for the assigned columns
`cols`: the columns comma-separated with placeholders `$1..$k` in order, then
the WHERE clause with placeholder `$(k+1)`. -/
def alignedText (cols : List String) : String :=
  "UPDATE task SET " ++
    ", ".intercalate (cols.enum.map fun p => p.2 ++ "=$" ++ toString (p.1 + 1)) ++
    " WHERE ID=$" ++ toString (cols.length + 1)

/-- One request handled by the task service, with the environment it runs in. -/
inductive Request where
  | new (env : Env) (subject reply : String) (t : model.Task)
  | update (env : Env) (subject reply : String) (t : model.Task)
  | delete (env : Env) (subject reply id : String)
  | get (env : Env) (subject reply id : String)
  | list (env : Env) (subject reply clientID : String)

/-- The handler run of a request on the committed store `db`. -/
def Request.handle (r : Request) (db : Store) : Outcome :=
  match r with
  | .new env subject reply t => Service.New env db subject reply t
  | .update env subject reply t => Service.Update env db subject reply t
  | .delete env subject reply id => Service.Delete env db subject reply id
  | .get env subject reply id => Service.Get env db subject reply id
  | .list env subject reply clientID => Service.List env db subject reply clientID

/-- The committed store after a sequence of requests handled one after the
other. -/
def handleAll : List Request → Store → Store
  | [], db => db
  | r :: rs, db => handleAll rs (r.handle db).db

/-- What one request may do to the billing table: nothing, append one row
with status Locked, or set rows to Paid with a paid date and a freelancer. -/
def BillingStep (b b' : List BillingRow) : Prop :=
  b' = b ∨
  (∃ row, row.Status = model.Locked ∧ b' = b ++ [row]) ∨
  (∃ id fid now, b' = b.map fun r => if r.ID = id then paidRow fid now r else r)

/-- How the billing table `b` may have become `b'`, row by row: every row is
still there, at its place and with its id, its status kept or set to Paid;
a row added holds Locked or Paid. -/
def BillingEvolved (b b' : List BillingRow) : Prop :=
  ∀ i : Nat,
    match b[i]?, b'[i]? with
    | some r, some r' => r'.ID = r.ID ∧ (r'.Status = r.Status ∨ r'.Status = model.Paid)
    | some _, none => False
    | none, some r' => r'.Status = model.Locked ∨ r'.Status = model.Paid
    | none, none => True

end task

/-! ## Scenarios

Concrete environments and stores on which the theorems below are exercised. -/

namespace Scenario

/-- An environment in which the lookup replies success with a client of the
requested id and the given balance, and the driver reports no error. -/
def env (balance : Int) : Env :=
  { request := fun _ id => .ok { Success := true, Message := "", Data := id }
    unmarshalClient := fun d => .ok { ID := d, Email := "", Balance := balance, DeletedAt := none }
    marshalTask := fun _ => .ok ""
    marshalTasks := fun _ => .ok ""
    now := 7
    newID := "b1"
    begin := none
    commit := none
    withdraw := .none
    lock := .none
    insertTask := .none
    getTask := none
    selectBilling := none
    payBilling := .none
    selectFreelancer := none
    credit := .none
    updateTask := .none
    deleteTask := .none
    listTasks := none }

/-- The environment `env balance` with the balance lookup timing out. -/
def envTimeout (balance : Int) : Env :=
  { env balance with request := fun _ _ => .error "nats: timeout" }

/-- The environment `env balance` with the lookup replying `success=false`. -/
def envRefused (balance : Int) : Env :=
  { env balance with
    request := fun _ _ => .ok { Success := false, Message := "sql: no rows in result set", Data := "" } }

/-- The environment `env balance` with the escrow insert rejected. -/
def envLockFails (balance : Int) : Env :=
  { env balance with lock := .execErr "pq: duplicate key value" }

/-- A store with one client holding `balance`, one freelancer without a
balance, and neither tasks nor billing rows. -/
def db (balance : Int) : Store :=
  { client := [{ ID := "c1", Email := "", Balance := balance, DeletedAt := none }]
    freelancer := [{ ID := "f1", Description := none, Details := none, Email := "",
                     Balance := none, DeletedAt := none }]
    billing := []
    task := [] }

/-- A task-update payload for task `t1` with no field set. -/
def idOnly : model.Task :=
  { ID := "t1", ClientID := "", FreelancerID := "", Description := "", Fee := 0, Deadline := 0,
    Status := "", StartedAt := none, DeletedAt := none, UpdatedAt := none, CreatedAt := 0 }

/-- A create-task payload for client `c1` with the given fee, as
`model.NewTask` builds it. -/
def newTask (fee : Int) : model.Task := model.NewTask "t1" 1 172800 fee "c1" "foo bar"

/-- The store after task `t1` is created with a fee of 100. -/
def created : Store :=
  (task.Service.New (env 1000) (db 1000) "task.add" "r" (newTask 100)).db

/-- The store after a task-update then sets the fee to 99999 and assigns
freelancer `f1`. -/
def repriced : Store :=
  (task.Service.Update (env 1000) created "task.update" "r"
    { idOnly with Fee := 99999, FreelancerID := "f1" }).db

/-- The store after a task-update assigns freelancer `f1` to the created task. -/
def assigned : Store :=
  (task.Service.Update (env 1000) created "task.update" "r"
    { idOnly with FreelancerID := "f1" }).db

/-- The task-update payload that closes task `t1`. -/
def closing : model.Task := { idOnly with Status := model.Closed }

/-- The first close of the assigned task. -/
def closedOnce : Outcome :=
  task.Service.Update (env 1000) assigned "task.update" "r" closing

/-- A second close of the same task. -/
def closedTwice : Outcome :=
  task.Service.Update (env 1000) closedOnce.db "task.update" "r" closing

/-- A closing task-update whose id matches no stored task. -/
def unknownClose : model.Task :=
  { idOnly with ID := "46f5974b-e939-4017-b239-56120c0d00bb", Status := model.Closed }

/-- A task-update setting a description on an id that matches no stored task. -/
def unknownEdit : model.Task :=
  { idOnly with ID := "46f5974b-e939-4017-b239-56120c0d00bb", Description := "bar foo" }

/-- A task-update setting a description with an empty id. -/
def emptyIdEdit : model.Task := { idOnly with ID := "", Description := "bar foo" }

/-- The assigned task without its billing row. -/
def unbilled : Store := { assigned with billing := [] }

/-- The environment `env balance` with the store reporting zero rows affected,
and no error, for the update of the billing row. -/
def envPayNoRows (balance : Int) : Env := { env balance with payBilling := .noRows }

/-- The environment `env balance` with the store reporting zero rows affected,
and no error, for the update of the freelancer balance. -/
def envCreditNoRows (balance : Int) : Env := { env balance with credit := .noRows }

/-- The task row of `assigned`. -/
def assignedTask : model.Task :=
  { newTask 100 with FreelancerID := "f1", UpdatedAt := some 7 }

/-- The environment `env balance` with the store reporting zero rows affected,
and no error, for the insert of the task row. -/
def envInsertNoRows (balance : Int) : Env := { env balance with insertTask := .noRows }

/-- The payload closing task `t1` that also carries freelancer id `f2`. -/
def closingOther : model.Task := { idOnly with Status := model.Closed, FreelancerID := "f2" }

/-- A task of client `c1` or another, created at the given time. -/
def listedTask (id clientID : String) (createdAt : Nat) (deletedAt : Option Nat) : model.Task :=
  { idOnly with ID := id, ClientID := clientID, Fee := 100, Status := model.Open,
                CreatedAt := createdAt, DeletedAt := deletedAt }

/-- A store with three tasks of client `c1`, one of them soft-deleted, stored
out of creation order, and one task of client `c2`. -/
def listed : Store :=
  { db 1000 with
    task := [listedTask "t2" "c1" 5 none, listedTask "t3" "c2" 2 none,
             listedTask "t4" "c1" 3 (some 4), listedTask "t1" "c1" 1 none] }

/-- The largest `int64`. -/
def maxInt64 : Int := 9223372036854775807

/-- The store after task `t1` has been closed once (freelancer `f1` holds 100)
and a task-update has then set its fee to the largest `int64`. -/
def maxPriced : Store :=
  (task.Service.Update (env 1000) closedOnce.db "task.update" "r"
    { idOnly with Fee := maxInt64 }).db

end Scenario

/-! ## Arithmetic -/

theorem wrapInt64_of_isInt64 {x : Int} (h : isInt64 x) : wrapInt64 x = x := by
  unfold isInt64 at h
  unfold wrapInt64
  omega

theorem isInt64_wrapInt64 (x : Int) : isInt64 (wrapInt64 x) := by
  unfold isInt64 wrapInt64
  omega

/-- Without overflow the guard of `Service.New` is the comparison of the
balance with the fee. -/
theorem subInt64_nonneg_iff {a b : Int} (h : isInt64 (a - b)) : 0 ≤ subInt64 a b ↔ b ≤ a := by
  unfold subInt64
  rw [wrapInt64_of_isInt64 h]
  omega

/-! ## `Service.New` -/

namespace task

/-- When the guard of `Service.New` fires, that is when the replied balance
minus the fee computed in Go `int64` subtraction is below zero, the handler
leaves the store as it was and makes no database call at all. -/
theorem New_insufficient_no_mutation (env : Env) (db : Store) (subject reply : String)
    (t : model.Task) (client : model.Client) (hlook : LookupOK env t client)
    (hlow : subInt64 client.Balance t.Fee < 0) :
    (Service.New env db subject reply t).db = db ∧
      (Service.New env db subject reply t).log = [] := by
  obtain ⟨msg, hreq, hs, hdec⟩ := hlook
  simp [Service.New, hreq, hs, hdec, hlow]

/-- A replied balance of 50 against a fee of 100. -/
theorem New_insufficient_no_mutation_witness :
    subInt64 50 100 < 0 ∧
      (Service.New (Scenario.env 50) (Scenario.db 50) "task.add" "r" (Scenario.newTask 100)).db
        = Scenario.db 50 ∧
      (Service.New (Scenario.env 50) (Scenario.db 50) "task.add" "r" (Scenario.newTask 100)).log
        = [] :=
  ⟨by decide,
   New_insufficient_no_mutation (Scenario.env 50) (Scenario.db 50) "task.add" "r"
     (Scenario.newTask 100) { ID := "c1", Email := "", Balance := 50, DeletedAt := none }
     ⟨_, rfl, rfl, rfl⟩ (by decide)⟩

/-- When the guard of `Service.New` does not fire (the replied balance minus
the fee computed in Go `int64` subtraction is not below zero) and every store
step succeeds, the handler appends exactly one billing row, with status
Locked, the fee as amount and the task id and client id of the request,
appends exactly one task row, and replies `success=true`. -/
theorem New_success_inserts (env : Env) (db : Store) (subject reply : String)
    (t : model.Task) (client : model.Client) (hlook : LookupOK env t client)
    (hfunds : 0 ≤ subInt64 client.Balance t.Fee)
    (hbegin : env.begin = none) (hdebit : env.withdraw = .none)
    (hrow : ∃ c ∈ db.client, c.ID = client.ID)
    (hlock : env.lock = .none) (hinsert : env.insertTask = .none)
    (hcommit : env.commit = none) :
    (Service.New env db subject reply t).db.billing =
        db.billing ++ [{ ID := env.newID, ClientID := t.ClientID, FreelancerID := none,
                         PaidDate := none, Status := model.Locked, Amount := t.Fee,
                         TaskID := t.ID }] ∧
      (Service.New env db subject reply t).db.task =
        db.task ++ [{ t with StartedAt := none, DeletedAt := none, UpdatedAt := none }] ∧
      (Service.New env db subject reply t).published =
        [(reply, { Success := true, Message := "", Data := "" })] := by
  obtain ⟨msg, hreq, hs, hdec⟩ := hlook
  have hcount : ¬ List.countP (fun c => decide (c.ID = client.ID)) db.client = 0 := by
    obtain ⟨c, hc, hid⟩ := hrow
    have : 0 < List.countP (fun c => decide (c.ID = client.ID)) db.client :=
      List.countP_pos_iff.mpr ⟨c, hc, by simpa using hid⟩
    omega
  simp [Service.New, hreq, hs, hdec, not_lt.mpr hfunds, hbegin, Service.New.debit,
    Service.New.escrow, Service.New.create, exec, hdebit, hlock, hinsert, commitTx, hcommit,
    withdrawFundsStmt, lockFundsStmt, insertTaskStmt, hcount, okMsg]

/-- A replied and stored balance of 1000 against a fee of 100, on an empty task table. -/
theorem New_success_inserts_witness :
    (Service.New (Scenario.env 1000) (Scenario.db 1000) "task.add" "r"
        (Scenario.newTask 100)).db.billing =
        [{ ID := "b1", ClientID := "c1", FreelancerID := none, PaidDate := none,
           Status := "locked", Amount := 100, TaskID := "t1" }] ∧
      (Service.New (Scenario.env 1000) (Scenario.db 1000) "task.add" "r"
        (Scenario.newTask 100)).db.task = [Scenario.newTask 100] ∧
      (Service.New (Scenario.env 1000) (Scenario.db 1000) "task.add" "r"
        (Scenario.newTask 100)).published =
        [("r", { Success := true, Message := "", Data := "" })] :=
  New_success_inserts (Scenario.env 1000) (Scenario.db 1000) "task.add" "r"
    (Scenario.newTask 100) { ID := "c1", Email := "", Balance := 1000, DeletedAt := none }
    ⟨_, rfl, rfl, rfl⟩ (by decide) rfl rfl ⟨_, List.mem_singleton.mpr rfl, rfl⟩ rfl rfl rfl

/-- C5. Once `Service.New` has begun its transaction, if the debit returns an
error or affects zero rows, or the escrow insert returns an error, or the
task insert returns an error, the transaction is rolled back, the committed
store is the one before the request, and exactly one reply is published,
with `success=false`; after a debit that affects zero rows without an error
the message is "no rows effected". -/
theorem New_failure_rolls_back (env : Env) (db : Store) (subject reply : String)
    (t : model.Task) (client : model.Client) (hlook : LookupOK env t client)
    (hfunds : 0 ≤ subInt64 client.Balance t.Fee) (hbegin : env.begin = none)
    (hfail :
      (Service.New.debit env db client t).2.err ≠ none ∨
      (Service.New.debit env db client t).2.rows = 0 ∨
      (Service.New.escrow env (Service.New.debit env db client t).1 t).2.err ≠ none ∨
      (Service.New.create env
        (Service.New.escrow env (Service.New.debit env db client t).1 t).1 t).2.err ≠ none) :
    (Service.New env db subject reply t).db = db ∧
      (Service.New env db subject reply t).log.getLast? = some DbOp.rollback ∧
      (∃ m, (Service.New env db subject reply t).published =
          [(reply, { Success := false, Message := m, Data := "" })]) ∧
      ((Service.New.debit env db client t).2.err = none →
        (Service.New.debit env db client t).2.rows = 0 →
        (Service.New env db subject reply t).published =
          [(reply, { Success := false, Message := "no rows effected", Data := "" })]) := by
  obtain ⟨msg, hreq, hs, hdec⟩ := hlook
  simp only [Service.New, hreq, hs, hdec, not_lt.mpr hfunds, hbegin]
  simp only [Bool.not_true, Bool.false_eq_true, if_false]
  split
  · simp [failMsg]
    intro h1 ; simp_all
  · split
    · simp [failMsg]
    · split
      · simp [failMsg]
        intro h1 h2 ; simp_all
      · split
        · simp [failMsg]
          intro h1 h2 ; simp_all
        · simp_all

/-- The escrow insert is rejected after a debit that went through. -/
theorem New_failure_rolls_back_witness :
    (Service.New (Scenario.envLockFails 1000) (Scenario.db 1000) "task.add" "r"
        (Scenario.newTask 100)).db = Scenario.db 1000 ∧
      (Service.New (Scenario.envLockFails 1000) (Scenario.db 1000) "task.add" "r"
        (Scenario.newTask 100)).log.getLast? = some DbOp.rollback ∧
      (∃ m, (Service.New (Scenario.envLockFails 1000) (Scenario.db 1000) "task.add" "r"
        (Scenario.newTask 100)).published =
          [("r", { Success := false, Message := m, Data := "" })]) :=
  have h := New_failure_rolls_back (Scenario.envLockFails 1000) (Scenario.db 1000) "task.add"
    "r" (Scenario.newTask 100) { ID := "c1", Email := "", Balance := 1000, DeletedAt := none }
    ⟨_, rfl, rfl, rfl⟩ (by decide) rfl (Or.inr (Or.inr (Or.inl (by decide))))
  ⟨h.1, h.2.1, h.2.2.1⟩

/-- C6. Evaluation of `Service.New` on the three failures before the
transaction.  When the lookup times out, and when the replied balance does
not cover the fee, the handler returns an error and publishes nothing; only
an explicit `success=false` reply of the lookup is answered with a
`success=false` reply. -/
theorem New_early_failures_eval :
    ((Service.New (Scenario.envTimeout 1000) (Scenario.db 1000) "task.add" "r"
        (Scenario.newTask 100)).published = [] ∧
      (Service.New (Scenario.envTimeout 1000) (Scenario.db 1000) "task.add" "r"
        (Scenario.newTask 100)).ret = Ret.error "nats: timeout") ∧
    ((Service.New (Scenario.env 50) (Scenario.db 50) "task.add" "r"
        (Scenario.newTask 100)).published = [] ∧
      (Service.New (Scenario.env 50) (Scenario.db 50) "task.add" "r"
        (Scenario.newTask 100)).ret = Ret.error "Insufficient funds") ∧
    (Service.New (Scenario.envRefused 1000) (Scenario.db 1000) "task.add" "r"
        (Scenario.newTask 100)).published =
      [("r", { Success := false, Message := "sql: no rows in result set", Data := "" })] := by
  decide

/-- C7. Whenever `Service.New` issues the debit statement, the value it binds
to `balance` is not negative, for every replied balance and every fee under
Go `int64` subtraction. -/
theorem New_debit_nonneg (env : Env) (db : Store) (subject reply : String) (t : model.Task)
    (balance : Int) (id : String)
    (h : DbOp.exec withdrawFunds [.int balance, .str id] ∈
      (Service.New env db subject reply t).log) : 0 ≤ balance := by
  revert balance id
  unfold Service.New
  dsimp only
  repeat' split
  all_goals
    intro b i hmem
    simp [withdrawFunds, lockFunds, insertTask] at hmem <;> omega

/-- A replied balance of 1000 against a fee of 100: the debit binds 900. -/
theorem New_debit_nonneg_witness :
    DbOp.exec withdrawFunds [.int 900, .str "c1"] ∈
        (Service.New (Scenario.env 1000) (Scenario.db 1000) "task.add" "r"
          (Scenario.newTask 100)).log ∧ (0 : Int) ≤ 900 :=
  ⟨by decide,
   New_debit_nonneg (Scenario.env 1000) (Scenario.db 1000) "task.add" "r"
     (Scenario.newTask 100) 900 "c1" (by decide)⟩

/-- A success reply of `Service.New` is published only at the end of the
path on which the lookup, the guard, `Begin`, the debit, and both inserts
went through. -/
theorem New_success_inv {env : Env} {db : Store} {subject reply : String} {t : model.Task}
    (h : Succeeded (Service.New env db subject reply t)) :
    ∃ client, LookupOK env t client ∧ 0 ≤ subInt64 client.Balance t.Fee ∧
      env.begin = none ∧
      (Service.New.debit env db client t).2 =
        { err := none, rows := (Service.New.debit env db client t).2.rows, rowsErr := none } ∧
      (Service.New.debit env db client t).2.rows ≠ 0 ∧
      (Service.New.escrow env (Service.New.debit env db client t).1 t).2.err = none ∧
      (Service.New.create env
        (Service.New.escrow env (Service.New.debit env db client t).1 t).1 t).2.rows ≠ 0 ∧
      (Service.New.create env
        (Service.New.escrow env (Service.New.debit env db client t).1 t).1 t).2.rowsErr = none ∧
      (Service.New env db subject reply t).db = commitTx env db
        (Service.New.create env
          (Service.New.escrow env (Service.New.debit env db client t).1 t).1 t).1 := by
  revert h
  unfold Service.New Succeeded
  dsimp only
  repeat' split
  all_goals first
    | (intro h; simp [failMsg] at h; done)
    | skip
  rename_i x1 msg hreq hs x2 client hdec hguard x3 hbegin x4 herr1 hrows1 x5 herr2 x6 herr3 hrows3
  intro _
  refine ⟨client, ⟨msg, hreq, by simpa using hs, hdec⟩, by omega, hbegin, ?_, ?_, herr2, ?_, ?_, rfl⟩
  · simp only [Bool.or_eq_true, decide_eq_true_eq, not_or, Bool.not_eq_true,
      Option.not_isSome, Option.isNone_iff_eq_none] at hrows1
    cases hd : (Service.New.debit env db client t).2
    simp_all
  · simp only [Bool.or_eq_true, decide_eq_true_eq, not_or] at hrows1
    exact hrows1.1
  · simp only [Bool.or_eq_true, decide_eq_true_eq, not_or] at hrows3
    exact hrows3.1
  · simp only [Bool.or_eq_true, decide_eq_true_eq, not_or, Bool.not_eq_true,
      Option.not_isSome, Option.isNone_iff_eq_none] at hrows3
    exact hrows3.2

/-- An `Exec` that reports no error and a non-zero row count has run its
statement. -/
theorem exec_ran (f : Fault) (stmt : Store → Store × Nat) (s : Store)
    (herr : (exec f stmt s).2.err = none) (hrowsErr : (exec f stmt s).2.rowsErr = none)
    (hrows : (exec f stmt s).2.rows ≠ 0) :
    f = Fault.none ∧ (exec f stmt s).1 = (stmt s).1 ∧ (stmt s).2 ≠ 0 := by
  cases f <;> simp_all [exec]

theorem escrow_client (env : Env) (s : Store) (t : model.Task) :
    (Service.New.escrow env s t).1.client = s.client := by
  unfold Service.New.escrow exec lockFundsStmt
  cases env.lock <;> rfl

theorem escrow_task (env : Env) (s : Store) (t : model.Task) :
    (Service.New.escrow env s t).1.task = s.task := by
  unfold Service.New.escrow exec lockFundsStmt
  cases env.lock <;> rfl

theorem create_client (env : Env) (s : Store) (t : model.Task) :
    (Service.New.create env s t).1.client = s.client := by
  unfold Service.New.create exec insertTaskStmt
  cases env.insertTask <;> rfl

theorem debit_task (env : Env) (s : Store) (c : model.Client) (t : model.Task) :
    (Service.New.debit env s c t).1.task = s.task := by
  unfold Service.New.debit exec withdrawFundsStmt
  cases env.withdraw <;> rfl

/-- C3 (counterexample). The lookup replies a balance of 100 while the stored
balance is 5 and the fee is 10: the stored condition `balance >= fee` does not
hold, yet `Service.New` replies success and the stored balance afterwards is
90, not 5 - 10. -/
theorem New_debit_not_relative_to_store :
    (Service.New (Scenario.env 100) (Scenario.db 5) "task.add" "r"
        (Scenario.newTask 10)).published =
        [("r", { Success := true, Message := "", Data := "" })] ∧
      (Scenario.db 5).client.map (fun c => c.Balance) = [5] ∧
      (Scenario.newTask 10).Fee = 10 ∧
      (Service.New (Scenario.env 100) (Scenario.db 5) "task.add" "r"
        (Scenario.newTask 10)).db.client.map (fun c => c.Balance) = [90] ∧
      (90 : Int) ≠ 5 - 10 := by
  decide

theorem LookupOK_unique {env : Env} {t : model.Task} {c₁ c₂ : model.Client}
    (h₁ : LookupOK env t c₁) (h₂ : LookupOK env t c₂) : c₁ = c₂ := by
  obtain ⟨m₁, hr₁, -, hd₁⟩ := h₁
  obtain ⟨m₂, hr₂, -, hd₂⟩ := h₂
  rw [hr₁] at hr₂
  cases hr₂
  rw [hd₁] at hd₂
  cases hd₂
  rfl

/-- C3 (amended). After every successful create-task whose commit takes
effect, every client row with the id of the replied client holds the replied
balance minus the fee (Go `int64` subtraction), whatever it held before; the
other client rows are unchanged; and at least one row has that id, the only
condition the debit checks in the store. -/
theorem New_success_debit (env : Env) (db : Store) (subject reply : String) (t : model.Task)
    (client : model.Client) (hlook : LookupOK env t client)
    (h : Succeeded (Service.New env db subject reply t)) (hcommit : env.commit = none) :
    (∃ c ∈ db.client, c.ID = client.ID) ∧
      (Service.New env db subject reply t).db.client =
        db.client.map fun c =>
          if c.ID = client.ID then { c with Balance := subInt64 client.Balance t.Fee } else c := by
  obtain ⟨client', hlook', -, -, hd, hrows, -, -, -, hdb⟩ := New_success_inv h
  obtain rfl := LookupOK_unique hlook hlook'
  have hran := exec_ran env.withdraw
    (withdrawFundsStmt (subInt64 client.Balance t.Fee) client.ID) db
    (by have := congrArg ExecResult.err hd; simpa [Service.New.debit] using this)
    (by have := congrArg ExecResult.rowsErr hd; simpa [Service.New.debit] using this)
    (by simpa [Service.New.debit] using hrows)
  refine ⟨?_, ?_⟩
  · have hpos : 0 < List.countP (fun c => decide (c.ID = client.ID)) db.client := by
      have := hran.2.2
      simp only [withdrawFundsStmt] at this
      omega
    obtain ⟨c, hc, hid⟩ := List.countP_pos_iff.mp hpos
    exact ⟨c, hc, by simpa using hid⟩
  · rw [hdb]
    simp only [commitTx, hcommit, create_client, escrow_client]
    have := congrArg Store.client hran.2.1
    simpa [Service.New.debit, withdrawFundsStmt] using this

/-- A stored balance of 5 with a replied balance of 100 and a fee of 10. -/
theorem New_success_debit_witness :
    (Scenario.db 5).client.map (fun c => c.Balance) = [5] ∧
      (Service.New (Scenario.env 100) (Scenario.db 5) "task.add" "r"
          (Scenario.newTask 10)).db.client.map (fun c => c.Balance) = [subInt64 100 10] :=
  have h := New_success_debit (Scenario.env 100) (Scenario.db 5) "task.add" "r"
    (Scenario.newTask 10) { ID := "c1", Email := "", Balance := 100, DeletedAt := none }
    ⟨_, rfl, rfl, rfl⟩ (by decide) rfl
  ⟨by decide, by rw [h.2]; decide⟩

/-- C4 (counterexample). A create-task payload carrying status Closed is
answered with success and its task row is stored with status Closed. -/
theorem New_keeps_payload_status :
    (Service.New (Scenario.env 1000) (Scenario.db 1000) "task.add" "r"
        { Scenario.newTask 100 with Status := model.Closed }).published =
        [("r", { Success := true, Message := "", Data := "" })] ∧
      (Service.New (Scenario.env 1000) (Scenario.db 1000) "task.add" "r"
        { Scenario.newTask 100 with Status := model.Closed }).db.task.map (fun r => r.Status)
        = [model.Closed] ∧
      model.Closed ≠ model.Open := by
  decide

/-- C4 (amended). After every successful create-task whose commit takes
effect, exactly one task row has been appended and it carries the fields of
the request payload, its status included; the status is Open for every
payload built by `model.NewTask`. -/
theorem New_success_task_status (env : Env) (db : Store) (subject reply : String)
    (t : model.Task) (h : Succeeded (Service.New env db subject reply t))
    (hcommit : env.commit = none) :
    (Service.New env db subject reply t).db.task =
        db.task ++ [{ t with StartedAt := none, DeletedAt := none, UpdatedAt := none }] ∧
      ∀ (newID : String) (now : Nat) (deadline fee : Int) (clientID description : String),
        (model.NewTask newID now deadline fee clientID description).Status = model.Open := by
  obtain ⟨client, -, -, -, -, -, herr, hrows, hrowsErr, hdb⟩ := New_success_inv h
  refine ⟨?_, fun _ _ _ _ _ _ => rfl⟩
  have hran := exec_ran env.insertTask (insertTaskStmt t)
    (Service.New.escrow env (Service.New.debit env db client t).1 t).1
    (by
      cases hf : env.insertTask <;>
        simp_all [Service.New.create, exec])
    (by simpa [Service.New.create] using hrowsErr)
    (by simpa [Service.New.create] using hrows)
  rw [hdb]
  simp only [commitTx, hcommit]
  have := congrArg Store.task hran.2.1
  simpa [Service.New.create, insertTaskStmt, escrow_task, debit_task] using this

/-- A create-task payload carrying status Closed. -/
theorem New_success_task_status_witness :
    (Service.New (Scenario.env 1000) (Scenario.db 1000) "task.add" "r"
        { Scenario.newTask 100 with Status := model.Closed }).db.task =
        (Scenario.db 1000).task ++
          [{ Scenario.newTask 100 with
              Status := model.Closed, StartedAt := none, DeletedAt := none, UpdatedAt := none }] ∧
      (model.NewTask "t1" 1 172800 100 "c1" "foo bar").Status = model.Open :=
  have h := New_success_task_status (Scenario.env 1000) (Scenario.db 1000) "task.add" "r"
    { Scenario.newTask 100 with Status := model.Closed } (by decide) rfl
  ⟨h.1, h.2 "t1" 1 172800 100 "c1" "foo bar"⟩

/-! ## Settlement and `Service.Update` -/

/-- `Service.transferFunds` when the escrow row `E` and the freelancer row `F`
are found and every store step succeeds. -/
theorem transferFunds_ok {env : Env} {db : Store} (T : model.Task) {E : BillingRow}
    {F : model.Freelancer} (hbegin : env.begin = none) (hsb : env.selectBilling = none)
    (hE : db.billing.find? (fun r => r.TaskID = T.ID) = some E)
    (hpay : env.payBilling = .none) (hsf : env.selectFreelancer = none)
    (hF : db.freelancer.find? (fun f => f.ID = T.FreelancerID) = some F)
    (hcredit : env.credit = .none) (hcommit : env.commit = none) :
    (Service.transferFunds env db T).err = none ∧
      (Service.transferFunds env db T).db =
        { db with
          billing := db.billing.map fun r =>
            if r.ID = E.ID then paidRow T.FreelancerID env.now r else r
          freelancer := db.freelancer.map fun f =>
            if f.ID = T.FreelancerID then
              { f with Balance := some (addInt64 (F.Balance.getD 0) T.Fee) }
            else f } := by
  have hEc : ¬ List.countP (fun r => decide (r.ID = E.ID)) db.billing = 0 := by
    have : 0 < List.countP (fun r => decide (r.ID = E.ID)) db.billing :=
      List.countP_pos_iff.mpr ⟨E, List.mem_of_find?_eq_some hE, by simp⟩
    omega
  have hFc : ¬ List.countP (fun f => decide (f.ID = T.FreelancerID)) db.freelancer = 0 := by
    have : 0 < List.countP (fun f => decide (f.ID = T.FreelancerID)) db.freelancer :=
      List.countP_pos_iff.mpr ⟨F, List.mem_of_find?_eq_some hF, by
        simpa using List.find?_some hF⟩
    omega
  simp [Service.transferFunds, hbegin, selectBillingID, hsb, hE, exec, hpay, payBillingStmt,
    hEc, selectFreelancerBalance, hsf, hF, hcredit, creditStmt, hFc, commitTx, hcommit, paidRow]

/-- The statement `Service.Update` builds assigns to a row exactly what
`updatedRow` describes, and its last placeholder is bound to the id. -/
theorem Update_statement_effect (env : Env) (t : model.Task) :
    let b6 := Service.Update.stamp env (Service.Update.fields t (Service.Update.afterStatus t))
    (b6.args ++ [Arg.str t.ID])[b6.position - 1]? = some (Arg.str t.ID) ∧
      ∀ r, applySets b6.sets (b6.args ++ [Arg.str t.ID]) r = updatedRow t env.now r := by
  by_cases hfee : t.Fee > 0 <;> by_cases hst : len t.Status > 0 <;>
    by_cases hde : len t.Description > 0 <;> by_cases hfl : len t.FreelancerID > 0 <;>
    by_cases hdl : t.Deadline > 0 <;>
    simp [Service.Update.stamp, Service.Update.fields, Service.Update.afterStatus,
      Service.Update.feeStep, Builder.init, Builder.comma, Builder.write, Builder.bind,
      applySets, setColumn, updatedRow, hfee, hst, hde, hfl, hdl]

theorem update_length : update.length = 16 := by decide

theorem feeStep_length (t : model.Task) :
    16 ≤ (Service.Update.feeStep t).updateS.length := by
  unfold Service.Update.feeStep
  split <;> simp [Builder.write, Builder.bind, Builder.init, update_length]

theorem comma_length (b : Builder) : b.updateS.length ≤ b.comma.updateS.length := by
  unfold Builder.comma
  split <;> simp

theorem write_length (b : Builder) (col suffix : String) :
    b.updateS.length + 2 ≤ (b.write col suffix).updateS.length := by
  simp only [Builder.write, String.length_append]
  have : "=$".length = 2 := by decide
  omega

theorem fields_length (t : model.Task) (b : Builder) :
    b.updateS.length ≤ (Service.Update.fields t b).updateS.length := by
  unfold Service.Update.fields
  dsimp only
  have step : ∀ (b : Builder) (col : String) (v : Arg),
      b.updateS.length ≤ ((b.comma.write col "").bind v).updateS.length := by
    intro b col v
    have h1 := comma_length b
    have h2 := write_length b.comma col ""
    simp only [Builder.bind]
    omega
  split_ifs
  · exact (step _ _ _).trans ((step _ _ _).trans (step _ _ _))
  · exact (step _ _ _).trans (step _ _ _)
  · exact (step _ _ _).trans (step _ _ _)
  · exact step _ _ _
  · exact (step _ _ _).trans (step _ _ _)
  · exact step _ _ _
  · exact step _ _ _
  · exact le_refl _

/-- With a status in the payload the text built is longer than
`"UPDATE task SET "`, so `Service.Update` does not stop at "nothing to update". -/
theorem status_text_ne (t : model.Task) (v : Arg) :
    update ≠ (Service.Update.fields t
      (((Service.Update.feeStep t).comma.write "status" "").bind v)).updateS := by
  intro h
  have h0 := congrArg String.length h
  have h1 : ((Service.Update.feeStep t).comma.write "status" "").updateS.length ≤
      (Service.Update.fields t
        (((Service.Update.feeStep t).comma.write "status" "").bind v)).updateS.length :=
    fields_length t (((Service.Update.feeStep t).comma.write "status" "").bind v)
  have h2 := write_length (Service.Update.feeStep t).comma "status" ""
  have h3 := comma_length (Service.Update.feeStep t)
  have h4 := feeStep_length t
  rw [update_length] at h0
  omega

theorem len_closed : len model.Closed > 0 := by decide

/-- `Service.Update` on a payload with status Closed, when the task, its
escrow row and its freelancer row are found and every store step succeeds. -/
theorem Update_close_ok {env : Env} {db : Store} (subject reply : String) {t T : model.Task}
    {E : BillingRow} {F : model.Freelancer} (hst : t.Status = model.Closed)
    (hget : env.getTask = none) (hT : db.task.find? (fun r => r.ID = t.ID) = some T)
    (hbegin : env.begin = none) (hsb : env.selectBilling = none)
    (hE : db.billing.find? (fun r => r.TaskID = T.ID) = some E)
    (hpay : env.payBilling = .none) (hsf : env.selectFreelancer = none)
    (hF : db.freelancer.find? (fun f => f.ID = T.FreelancerID) = some F)
    (hcredit : env.credit = .none) (hcommit : env.commit = none)
    (hupd : env.updateTask = .none) :
    (Service.Update env db subject reply t).db =
        { client := db.client
          billing := db.billing.map fun r =>
            if r.ID = E.ID then paidRow T.FreelancerID env.now r else r
          freelancer := db.freelancer.map fun f =>
            if f.ID = T.FreelancerID then
              { f with Balance := some (addInt64 (F.Balance.getD 0) T.Fee) }
            else f
          task := db.task.map fun r => if r.ID = t.ID then updatedRow t env.now r else r } ∧
      (Service.Update env db subject reply t).published = [(reply, okMsg)] := by
  have htf := transferFunds_ok T hbegin hsb hE hpay hsf hF hcredit hcommit
  have hlen : len t.Status > 0 := by rw [hst]; exact len_closed
  have hne := status_text_ne t (.str t.Status)
  have heff := Update_statement_effect env t
  simp only [Service.Update.afterStatus, hlen, if_true] at heff
  obtain ⟨hid, hrow⟩ := heff
  simp only [Service.Update, hst, len_closed, if_true, Service.getTaskByID, hget]
  rw [hst] at hne hid hrow
  simp only [hT, htf.1, htf.2, Service.Update.rest, hne, if_false, exec, hupd,
    Service.Update.deferred, updateTaskStmt, hid, hrow, and_true]

/-- C8 (amended). For a task-update with status Closed whose id matches the
stored task `T`, with `E` the billing row the store returns for `T`'s id and
`F` the freelancer row it returns for `T`'s freelancer id, and every store
step succeeding: the billing rows with `E`'s id get status Paid, a paid date
and `T`'s stored freelancer id; the freelancer rows with that id hold `F`'s
previous balance (NULL counted as 0) plus `T`'s stored fee in Go `int64`
addition, wrapping around on overflow, which is the exact sum whenever that
sum is representable; then the task rows with the id are updated and have
status Closed; the reply is `success=true`. -/
theorem Update_close_settles (env : Env) (db : Store) (subject reply : String)
    (t T : model.Task) (E : BillingRow) (F : model.Freelancer)
    (hst : t.Status = model.Closed) (hsteps : CloseStepsOK env)
    (hT : db.task.find? (fun r => r.ID = t.ID) = some T)
    (hE : db.billing.find? (fun r => r.TaskID = T.ID) = some E)
    (hF : db.freelancer.find? (fun f => f.ID = T.FreelancerID) = some F) :
    ((Service.Update env db subject reply t).db.billing =
        db.billing.map fun r =>
          if r.ID = E.ID then
            { r with Status := model.Paid, PaidDate := some env.now,
                     FreelancerID := some T.FreelancerID }
          else r) ∧
      ((Service.Update env db subject reply t).db.freelancer =
        db.freelancer.map fun f =>
          if f.ID = T.FreelancerID then
            { f with Balance := some (addInt64 (F.Balance.getD 0) T.Fee) }
          else f) ∧
      (isInt64 (F.Balance.getD 0 + T.Fee) →
        addInt64 (F.Balance.getD 0) T.Fee = F.Balance.getD 0 + T.Fee) ∧
      ((Service.Update env db subject reply t).db.task =
        db.task.map fun r => if r.ID = t.ID then updatedRow t env.now r else r) ∧
      (∀ r, (updatedRow t env.now r).Status = model.Closed) ∧
      (Service.Update env db subject reply t).published =
        [(reply, { Success := true, Message := "", Data := "" })] := by
  obtain ⟨hget, hbegin, hsb, hpay, hsf, hcredit, hcommit, hupd⟩ := hsteps
  have h := Update_close_ok subject reply hst hget hT hbegin hsb hE
    hpay hsf hF hcredit hcommit hupd
  refine ⟨?_, ?_, ?_, ?_, ?_, ?_⟩
  · rw [h.1]; rfl
  · rw [h.1]
  · intro hr
    exact wrapInt64_of_isInt64 hr
  · rw [h.1]
  · intro r
    simp [updatedRow, hst, len_closed]
  · rw [h.2]; rfl

/-- The close of task `t1` (fee 100, freelancer `f1` without a balance). -/
theorem Update_close_settles_witness :
    (Service.Update (Scenario.env 1000) Scenario.assigned "task.update" "r"
        Scenario.closing).db.billing.map (fun r => (r.Status, r.PaidDate, r.FreelancerID))
        = [(model.Paid, some 7, some "f1")] ∧
      (Service.Update (Scenario.env 1000) Scenario.assigned "task.update" "r"
        Scenario.closing).db.freelancer.map (fun f => f.Balance) = [some 100] ∧
      (Service.Update (Scenario.env 1000) Scenario.assigned "task.update" "r"
        Scenario.closing).db.task.map (fun r => r.Status) = [model.Closed] :=
  have h := Update_close_settles (Scenario.env 1000) Scenario.assigned "task.update" "r"
    Scenario.closing
    { Scenario.newTask 100 with FreelancerID := "f1", UpdatedAt := some 7 }
    { ID := "b1", ClientID := "c1", FreelancerID := none, PaidDate := none,
      Status := model.Locked, Amount := 100, TaskID := "t1" }
    { ID := "f1", Description := none, Details := none, Email := "", Balance := none,
      DeletedAt := none }
    rfl ⟨rfl, rfl, rfl, rfl, rfl, rfl, rfl, rfl⟩ (by decide) (by decide) (by decide)
  ⟨by rw [h.1]; decide, by rw [h.2.1]; decide, by rw [h.2.2.2.1]; decide⟩

/-- C9 (counterexample). Task `t1` is created with a fee of 100 (the client
is debited 100 and the billing row records 100), a task-update raises the
fee to 99999, and the closing update succeeds: the billing row is Paid with
amount 100 while the freelancer's balance goes from NULL to 99999. -/
theorem close_credits_fee_not_escrow_amount :
    (Scenario.db 1000).client.map (fun c => c.Balance) = [1000] ∧
      Scenario.created.client.map (fun c => c.Balance) = [900] ∧
      Scenario.repriced.freelancer.map (fun f => f.Balance) = [none] ∧
      (Service.Update (Scenario.env 1000) Scenario.repriced "task.update" "r"
        Scenario.closing).published = [("r", { Success := true, Message := "", Data := "" })] ∧
      (Service.Update (Scenario.env 1000) Scenario.repriced "task.update" "r"
        Scenario.closing).db.billing.map (fun r => (r.Status, r.Amount)) = [(model.Paid, 100)] ∧
      (Service.Update (Scenario.env 1000) Scenario.repriced "task.update" "r"
        Scenario.closing).db.freelancer.map (fun f => f.Balance) = [some 99999] ∧
      (99999 : Int) ≠ 0 + 100 := by
  decide

/-- C9 (amended). For every successful settlement (a task-update with status
Closed whose store steps all succeed), the amount added to the freelancer's
balance is the fee stored on the task row when the close is handled (Go
`int64` addition, a NULL balance counted as 0); the amounts recorded on the
billing rows are left as they were. -/
theorem Update_close_credits_stored_fee (env : Env) (db : Store) (subject reply : String)
    (t T : model.Task) (E : BillingRow) (F : model.Freelancer)
    (hst : t.Status = model.Closed) (hsteps : CloseStepsOK env)
    (hT : db.task.find? (fun r => r.ID = t.ID) = some T)
    (hE : db.billing.find? (fun r => r.TaskID = T.ID) = some E)
    (hF : db.freelancer.find? (fun f => f.ID = T.FreelancerID) = some F) :
    (Service.Update env db subject reply t).db.freelancer =
        (db.freelancer.map fun f =>
          if f.ID = T.FreelancerID then
            { f with Balance := some (addInt64 (F.Balance.getD 0) T.Fee) }
          else f) ∧
      (Service.Update env db subject reply t).db.billing.map (fun r => r.Amount) =
        db.billing.map (fun r => r.Amount) := by
  obtain ⟨hget, hbegin, hsb, hpay, hsf, hcredit, hcommit, hupd⟩ := hsteps
  have h := Update_close_ok subject reply hst hget hT hbegin hsb hE
    hpay hsf hF hcredit hcommit hupd
  rw [h.1]
  refine ⟨rfl, ?_⟩
  simp only [List.map_map]
  apply List.map_congr_left
  intro r _
  simp only [Function.comp, paidRow]
  split <;> rfl

/-- The close of task `t1` after its fee was raised from 100 to 99999. -/
theorem Update_close_credits_stored_fee_witness :
    (Service.Update (Scenario.env 1000) Scenario.repriced "task.update" "r"
        Scenario.closing).db.freelancer.map (fun f => f.Balance) = [some (addInt64 0 99999)] ∧
      (Service.Update (Scenario.env 1000) Scenario.repriced "task.update" "r"
        Scenario.closing).db.billing.map (fun r => r.Amount) = [100] :=
  have h := Update_close_credits_stored_fee (Scenario.env 1000) Scenario.repriced
    "task.update" "r" Scenario.closing
    { Scenario.newTask 100 with Fee := 99999, FreelancerID := "f1", UpdatedAt := some 7 }
    { ID := "b1", ClientID := "c1", FreelancerID := none, PaidDate := none,
      Status := model.Locked, Amount := 100, TaskID := "t1" }
    { ID := "f1", Description := none, Details := none, Email := "", Balance := none,
      DeletedAt := none }
    rfl ⟨rfl, rfl, rfl, rfl, rfl, rfl, rfl, rfl⟩ (by decide) (by decide) (by decide)
  ⟨by rw [h.1]; decide, by rw [h.2]; decide⟩

/-- Looking a row up after an update that keeps the lookup key. -/
theorem find?_map_if {α : Type} (p : α → Bool) (q : α → Prop) [DecidablePred q] (g : α → α)
    (hp : ∀ a, p (g a) = p a) (l : List α) :
    (l.map fun a => if q a then g a else a).find? p =
      (l.find? p).map fun a => if q a then g a else a := by
  induction l with
  | nil => rfl
  | cons a l ih =>
    have hpa : p (if q a then g a else a) = p a := by
      split
      · exact hp a
      · rfl
    simp only [List.map_cons, List.find?_cons, hpa]
    cases p a
    · simpa using ih
    · rfl

/-- C10 (counterexample). The assigned task `t1` has a fee of 100 and one
billing row; two successive closing updates both reply success and the
freelancer's balance goes from NULL to 100 and then to 200. -/
theorem close_twice_credits_twice :
    Scenario.assigned.task.map (fun r => (r.ID, r.Fee, r.FreelancerID)) = [("t1", 100, "f1")] ∧
      Scenario.assigned.billing.map (fun r => (r.TaskID, r.Amount)) = [("t1", 100)] ∧
      Scenario.assigned.freelancer.map (fun f => (f.ID, f.Balance)) = [("f1", none)] ∧
      Scenario.closedOnce.published = [("r", { Success := true, Message := "", Data := "" })] ∧
      Scenario.closedOnce.db.freelancer.map (fun f => f.Balance) = [some 100] ∧
      Scenario.closedTwice.published = [("r", { Success := true, Message := "", Data := "" })] ∧
      Scenario.closedTwice.db.freelancer.map (fun f => f.Balance) = [some 200] := by
  decide

/-- C10 (amended). Settlement happens once per successful closing update, not
once per task: for a task with a billing row and an assigned freelancer, two
successive task-updates with status Closed (the first one carrying neither a
fee nor a freelancer id), with every store step succeeding, both reply
success and add the stored fee to the freelancer's balance twice. -/
theorem Update_close_twice_credits_twice (env₁ env₂ : Env) (db : Store)
    (subject₁ reply₁ subject₂ reply₂ : String) (t₁ t₂ T : model.Task) (E : BillingRow)
    (F : model.Freelancer)
    (hst₁ : t₁.Status = model.Closed) (hst₂ : t₂.Status = model.Closed) (hid : t₂.ID = t₁.ID)
    (hfee : ¬ t₁.Fee > 0) (hfl : ¬ len t₁.FreelancerID > 0)
    (hsteps₁ : CloseStepsOK env₁) (hsteps₂ : CloseStepsOK env₂)
    (hT : db.task.find? (fun r => r.ID = t₁.ID) = some T)
    (hE : db.billing.find? (fun r => r.TaskID = T.ID) = some E)
    (hF : db.freelancer.find? (fun f => f.ID = T.FreelancerID) = some F) :
    (Service.Update env₁ db subject₁ reply₁ t₁).published =
        [(reply₁, { Success := true, Message := "", Data := "" })] ∧
      (Service.Update env₂ (Service.Update env₁ db subject₁ reply₁ t₁).db
        subject₂ reply₂ t₂).published =
        [(reply₂, { Success := true, Message := "", Data := "" })] ∧
      (Service.Update env₂ (Service.Update env₁ db subject₁ reply₁ t₁).db
        subject₂ reply₂ t₂).db.freelancer =
        db.freelancer.map fun f =>
          if f.ID = T.FreelancerID then
            { f with Balance := some (addInt64 (addInt64 (F.Balance.getD 0) T.Fee) T.Fee) }
          else f := by
  obtain ⟨hget, hbegin, hsb, hpay, hsf, hcredit, hcommit, hupd⟩ := hsteps₁
  obtain ⟨hget', hbegin', hsb', hpay', hsf', hcredit', hcommit', hupd'⟩ := hsteps₂
  have h₁ := Update_close_ok subject₁ reply₁ hst₁ hget hT hbegin hsb
    hE hpay hsf hF hcredit hcommit hupd
  have hTid : T.ID = t₁.ID := by simpa using List.find?_some hT
  have hFid : F.ID = T.FreelancerID := by simpa using List.find?_some hF
  -- the rows the second close finds
  have hT' : (Service.Update env₁ db subject₁ reply₁ t₁).db.task.find?
      (fun r => r.ID = t₂.ID) = some (updatedRow t₁ env₁.now T) := by
    rw [h₁.1, hid]
    show List.find? _ (List.map _ _) = _
    rw [find?_map_if (fun r : model.Task => decide (r.ID = t₁.ID))
      (fun r : model.Task => r.ID = t₁.ID) (updatedRow t₁ env₁.now) (fun a => rfl), hT]
    simp [hTid]
  have hfee' : (updatedRow t₁ env₁.now T).Fee = T.Fee := by simp [updatedRow, hfee]
  have hfl' : (updatedRow t₁ env₁.now T).FreelancerID = T.FreelancerID := by
    simp [updatedRow, hfl]
  have hE' : (Service.Update env₁ db subject₁ reply₁ t₁).db.billing.find?
      (fun r => r.TaskID = (updatedRow t₁ env₁.now T).ID) =
      some (paidRow T.FreelancerID env₁.now E) := by
    rw [h₁.1]
    show List.find? (fun r : BillingRow => decide (r.TaskID = T.ID)) (List.map _ _) = _
    rw [find?_map_if (fun r : BillingRow => decide (r.TaskID = T.ID))
      (fun r : BillingRow => r.ID = E.ID) (paidRow T.FreelancerID env₁.now) (fun a => rfl), hE]
    simp
  have hF' : (Service.Update env₁ db subject₁ reply₁ t₁).db.freelancer.find?
      (fun f => f.ID = (updatedRow t₁ env₁.now T).FreelancerID) =
      some { F with Balance := some (addInt64 (F.Balance.getD 0) T.Fee) } := by
    rw [h₁.1, hfl']
    show List.find? _ (List.map _ _) = _
    rw [find?_map_if (fun f : model.Freelancer => decide (f.ID = T.FreelancerID))
      (fun f : model.Freelancer => f.ID = T.FreelancerID)
      (fun f => { f with Balance := some (addInt64 (F.Balance.getD 0) T.Fee) })
      (fun a => rfl), hF]
    simp [hFid]
  have h₂ := Update_close_ok subject₂ reply₂ hst₂ hget' hT' hbegin'
    hsb' hE' hpay' hsf' hF' hcredit' hcommit' hupd'
  refine ⟨by rw [h₁.2]; rfl, by rw [h₂.2]; rfl, ?_⟩
  rw [h₂.1, h₁.1]
  simp only [List.map_map, hfee', hfl', Option.getD_some]
  apply List.map_congr_left
  intro f _
  simp only [Function.comp]
  split <;> simp_all

/-- Two closes of task `t1` (fee 100, freelancer `f1` without a balance). -/
theorem Update_close_twice_credits_twice_witness :
    Scenario.closedTwice.db.freelancer.map (fun f => f.Balance) =
      [some (addInt64 (addInt64 0 100) 100)] :=
  have h := Update_close_twice_credits_twice (Scenario.env 1000) (Scenario.env 1000)
    Scenario.assigned "task.update" "r" "task.update" "r" Scenario.closing Scenario.closing
    { Scenario.newTask 100 with FreelancerID := "f1", UpdatedAt := some 7 }
    { ID := "b1", ClientID := "c1", FreelancerID := none, PaidDate := none,
      Status := model.Locked, Amount := 100, TaskID := "t1" }
    { ID := "f1", Description := none, Details := none, Email := "", Balance := none,
      DeletedAt := none }
    rfl rfl rfl (by decide) (by decide) ⟨rfl, rfl, rfl, rfl, rfl, rfl, rfl, rfl⟩
    ⟨rfl, rfl, rfl, rfl, rfl, rfl, rfl, rfl⟩ (by decide) (by decide) (by decide)
  by
    have h3 := h.2.2
    unfold Scenario.closedTwice Scenario.closedOnce
    rw [h3]
    decide

/-! ## The paths of `Service.Update` -/

/-- A settlement that returns an error has committed nothing. -/
theorem transferFunds_err_db (env : Env) (db : Store) (T : model.Task) (e : String)
    (h : (Service.transferFunds env db T).err = some e) :
    (Service.transferFunds env db T).db = db := by
  revert h
  unfold Service.transferFunds
  dsimp only
  repeat' split
  all_goals simp

/-- The statements a settlement executes are the two updates of the billing
row and of the freelancer balance. -/
theorem transferFunds_log_exec (env : Env) (db : Store) (T : model.Task) (q : String)
    (a : List Arg) (h : DbOp.exec q a ∈ (Service.transferFunds env db T).log) :
    q = payBillingQuery ∨ q = creditQuery := by
  revert h
  unfold Service.transferFunds
  dsimp only
  repeat' split
  all_goals
    intro h
    simp only [List.mem_cons, List.mem_singleton, DbOp.exec.injEq, List.not_mem_nil, or_false,
      false_or, reduceCtorEq] at h
  all_goals first
    | exact Or.inl h.1
    | exact Or.inr h.1
    | (rcases h with h | h
       · exact Or.inl h.1
       · exact Or.inr h.1)

theorem step_length (b : Builder) (col : String) (v : Arg) :
    b.updateS.length + 2 ≤ ((b.comma.write col "").bind v).updateS.length := by
  have h1 := comma_length b
  have h2 := write_length b.comma col ""
  simp only [Builder.bind]
  omega

theorem fields_length_strict (t : model.Task) (b : Builder)
    (h : len t.Description > 0 ∨ len t.FreelancerID > 0 ∨ t.Deadline > 0) :
    b.updateS.length + 2 ≤ (Service.Update.fields t b).updateS.length := by
  unfold Service.Update.fields
  dsimp only
  split_ifs with h1 h2 h3 h3 h2 h3 h3
  · exact (step_length _ _ _).trans
      ((Nat.le_add_right _ 2).trans ((step_length _ _ _).trans
        ((Nat.le_add_right _ 2).trans (step_length _ _ _))))
  · exact (step_length _ _ _).trans ((Nat.le_add_right _ 2).trans (step_length _ _ _))
  · exact (step_length _ _ _).trans ((Nat.le_add_right _ 2).trans (step_length _ _ _))
  · exact step_length _ _ _
  · exact (step_length _ _ _).trans ((Nat.le_add_right _ 2).trans (step_length _ _ _))
  · exact step_length _ _ _
  · exact step_length _ _ _
  · rcases h with h | h | h <;> contradiction

theorem afterStatus_length (t : model.Task) :
    16 ≤ (Service.Update.afterStatus t).updateS.length ∧
      (t.Fee > 0 ∨ len t.Status > 0 → 18 ≤ (Service.Update.afterStatus t).updateS.length) := by
  have hfee : 16 ≤ (Service.Update.feeStep t).updateS.length ∧
      (t.Fee > 0 → 18 ≤ (Service.Update.feeStep t).updateS.length) := by
    unfold Service.Update.feeStep
    split
    · have := write_length Builder.init "fee" ""
      have h0 : Builder.init.updateS.length = 16 := update_length
      simp only [Builder.bind]
      omega
    · have h0 : Builder.init.updateS.length = 16 := update_length
      exact ⟨by omega, fun h => absurd h ‹_›⟩
  unfold Service.Update.afterStatus
  split
  · have := step_length (Service.Update.feeStep t) "status" (.str t.Status)
    omega
  · rename_i hst
    refine ⟨hfee.1, fun h => ?_⟩
    rcases h with h | h
    · exact hfee.2 h
    · exact absurd h hst

/-- With a field set the text built is longer than `"UPDATE task SET "`, so
`Service.Update` does not stop at "nothing to update". -/
theorem fields_text_ne (t : model.Task) (h : FieldSet t) :
    update ≠ (Service.Update.fields t (Service.Update.afterStatus t)).updateS := by
  intro heq
  have h0 := congrArg String.length heq
  rw [update_length] at h0
  have h1 := fields_length t (Service.Update.afterStatus t)
  have h2 := afterStatus_length t
  rcases h with h | h | h | h | h
  · have := h2.2 (Or.inl h); omega
  · have := h2.2 (Or.inr h); omega
  · have := fields_length_strict t (Service.Update.afterStatus t) (Or.inl h); omega
  · have := fields_length_strict t (Service.Update.afterStatus t) (Or.inr (Or.inl h)); omega
  · have := fields_length_strict t (Service.Update.afterStatus t) (Or.inr (Or.inr h)); omega

/-- `Service.Update` from the description field on, when a field is set. -/
theorem rest_built (env : Env) (db : Store) (reply : String) (t : model.Task)
    (log : List DbOp) (err : Option String) (h : FieldSet t) :
    Service.Update.rest env db reply t (Service.Update.afterStatus t) log err =
      { db := (exec env.updateTask
          (updateTaskStmt (builtSet env t).sets (builtSet env t).position (builtArgs env t))
          db).1
        published := Service.Update.deferred reply err
        log := log ++ [DbOp.exec (builtText env t) (builtArgs env t)]
        ret := Ret.nil } := by
  simp only [Service.Update.rest, fields_text_ne t h, if_false, builtSet, builtText, builtArgs]

/-- `Service.Update` with no field set: nothing to update. -/
theorem Update_noop (env : Env) (db : Store) (subject reply : String) (t : model.Task)
    (h : ¬ FieldSet t) :
    Service.Update env db subject reply t =
      { db := db, published := [(reply, okMsg)], log := [], ret := Ret.nil } := by
  simp only [FieldSet, not_or] at h
  obtain ⟨h1, h2, h3, h4, h5⟩ := h
  simp [Service.Update, Service.Update.rest, Service.Update.fields, Service.Update.feeStep,
    Service.Update.deferred, Builder.init, h1, h2, h3, h4, h5]

/-- `Service.Update` with a field set and a status other than Closed: the one
database call is the update of the task row. -/
theorem Update_plain (env : Env) (db : Store) (subject reply : String) (t : model.Task)
    (hset : FieldSet t) (hst : t.Status ≠ model.Closed) :
    Service.Update env db subject reply t =
      { db := (exec env.updateTask
          (updateTaskStmt (builtSet env t).sets (builtSet env t).position (builtArgs env t))
          db).1
        published := [(reply, okMsg)]
        log := [DbOp.exec (builtText env t) (builtArgs env t)]
        ret := Ret.nil } := by
  have hr := rest_built env db reply t [] none hset
  unfold Service.Update
  dsimp only
  by_cases hlen : len t.Status > 0
  · simp only [hlen, if_true, hst, if_false]
    simp only [Service.Update.afterStatus, hlen, if_true] at hr
    rw [hr]
    rfl
  · simp only [hlen, if_false]
    simp only [Service.Update.afterStatus, hlen, if_false] at hr
    rw [hr]
    rfl

/-- `Service.Update` on a payload with status Closed. -/
theorem Update_closed (env : Env) (db : Store) (subject reply : String) (t : model.Task)
    (hst : t.Status = model.Closed) :
    Service.Update env db subject reply t =
      match Service.getTaskByID env db t.ID with
      | .error _ =>
        { db := db, published := [(reply, okMsg)],
          log := [DbOp.get getTaskQuery [.str t.ID]], ret := Ret.nil }
      | .ok T =>
        match (Service.transferFunds env db T).err with
        | some e =>
          { db := (Service.transferFunds env db T).db
            published := [(reply, failMsg e), (reply, okMsg)]
            log := DbOp.get getTaskQuery [.str t.ID] :: (Service.transferFunds env db T).log
            ret := Ret.nil }
        | none =>
          Service.Update.rest env (Service.transferFunds env db T).db reply t
            (Service.Update.afterStatus t)
            (DbOp.get getTaskQuery [.str t.ID] :: (Service.transferFunds env db T).log) none := by
  have hlen : len t.Status > 0 := by rw [hst]; exact len_closed
  simp only [Service.Update, hlen, if_true, Service.Update.afterStatus]
  simp only [hst, if_true]
  cases Service.getTaskByID env db t.ID with
  | error e => rfl
  | ok T =>
    dsimp only
    cases (Service.transferFunds env db T).err <;> rfl

/-- Every statement `Service.Update` executes is one of the two updates of the
settlement or the update of the task row it has built. -/
theorem Update_exec_cases (env : Env) (db : Store) (subject reply : String) (t : model.Task)
    (q : String) (a : List Arg)
    (h : DbOp.exec q a ∈ (Service.Update env db subject reply t).log) :
    q = payBillingQuery ∨ q = creditQuery ∨ (q = builtText env t ∧ a = builtArgs env t) := by
  by_cases hset : FieldSet t
  · by_cases hst : t.Status = model.Closed
    · rw [Update_closed env db subject reply t hst] at h
      cases hg : Service.getTaskByID env db t.ID with
      | error e =>
        rw [hg] at h
        simp at h
      | ok T =>
        rw [hg] at h
        dsimp only at h
        cases he : (Service.transferFunds env db T).err with
        | some e =>
          rw [he] at h
          simp only [List.mem_cons, reduceCtorEq, false_or] at h
          rcases transferFunds_log_exec env db T q a h with h' | h'
          · exact Or.inl h'
          · exact Or.inr (Or.inl h')
        | none =>
          rw [he] at h
          dsimp only at h
          rw [rest_built env _ reply t _ none hset] at h
          simp only [List.cons_append, List.mem_cons, reduceCtorEq, false_or, List.mem_append,
            List.mem_singleton, DbOp.exec.injEq, List.not_mem_nil, or_false] at h
          rcases h with h | h
          · rcases transferFunds_log_exec env db T q a h with h' | h'
            · exact Or.inl h'
            · exact Or.inr (Or.inl h')
          · exact Or.inr (Or.inr h)
    · rw [Update_plain env db subject reply t hset hst] at h
      simp only [List.mem_singleton, DbOp.exec.injEq] at h
      exact Or.inr (Or.inr h)
  · rw [Update_noop env db subject reply t hset] at h
    simp at h

/-- The SET clause `Service.Update` builds, with each placeholder looked up in
the arguments, is the list of assignments `setFields` prescribes. -/
theorem built_assignments (env : Env) (t : model.Task) :
    (builtSet env t).sets.map (fun c => (c.1, (builtArgs env t)[c.2 - 1]?)) =
      (setFields env t).map (fun p => (p.1, some p.2)) := by
  by_cases hfee : t.Fee > 0 <;> by_cases hst : len t.Status > 0 <;>
    by_cases hde : len t.Description > 0 <;> by_cases hfl : len t.FreelancerID > 0 <;>
    by_cases hdl : t.Deadline > 0 <;>
    simp [builtSet, builtArgs, setFields, Service.Update.stamp, Service.Update.fields,
      Service.Update.afterStatus, Service.Update.feeStep, Builder.init, Builder.comma,
      Builder.write, Builder.bind, hfee, hst, hde, hfl, hdl]

/-- The update of the task row touches no other table. -/
theorem updateTask_other_tables (f : Fault) (sets : List (String × Nat)) (w : Nat)
    (a : List Arg) (db : Store) :
    (exec f (updateTaskStmt sets w a) db).1.client = db.client ∧
      (exec f (updateTaskStmt sets w a) db).1.freelancer = db.freelancer ∧
      (exec f (updateTaskStmt sets w a) db).1.billing = db.billing := by
  unfold exec updateTaskStmt
  cases f <;> dsimp only <;> first | (split <;> simp) | simp

/-- The update of the task row when the store runs it. -/
theorem updateTask_ran (env : Env) (t : model.Task) (db : Store) :
    (exec Fault.none
      (updateTaskStmt (builtSet env t).sets (builtSet env t).position (builtArgs env t))
      db).1 =
      { db with task := db.task.map fun r =>
          if r.ID = t.ID then updatedRow t env.now r else r } := by
  have h := Update_statement_effect env t
  obtain ⟨hid, hrow⟩ := h
  simp only [exec, updateTaskStmt, builtSet, builtArgs, hid, hrow]

theorem prefixed_init : Builder.init.Prefixed := ⟨"", by decide⟩

theorem prefixed_step (b : Builder) (col suffix : String) (v : Arg) (h : b.Prefixed) :
    ((b.comma.write col suffix).bind v).Prefixed := by
  obtain ⟨x, hx⟩ := h
  unfold Builder.comma
  split
  · exact ⟨x ++ ", " ++ (col ++ "=$" ++ toString b.position ++ suffix), by
      simp [Builder.bind, Builder.write, hx, String.append_assoc]⟩
  · exact ⟨x ++ (col ++ "=$" ++ toString b.position ++ suffix), by
      simp [Builder.bind, Builder.write, hx, String.append_assoc]⟩

theorem prefixed_built (env : Env) (t : model.Task) : (builtSet env t).Prefixed := by
  have h1 : (Service.Update.feeStep t).Prefixed := by
    unfold Service.Update.feeStep
    split
    · have := prefixed_step Builder.init "fee" "" (.int t.Fee) prefixed_init
      simpa [Builder.comma, Builder.init] using this
    · exact prefixed_init
  have h2 : (Service.Update.afterStatus t).Prefixed := by
    unfold Service.Update.afterStatus
    split
    · exact prefixed_step _ _ _ _ h1
    · exact h1
  have h3 : (Service.Update.fields t (Service.Update.afterStatus t)).Prefixed := by
    unfold Service.Update.fields
    dsimp only
    split_ifs <;>
      first
        | exact prefixed_step _ _ _ _ (prefixed_step _ _ _ _ (prefixed_step _ _ _ _ h2))
        | exact prefixed_step _ _ _ _ (prefixed_step _ _ _ _ h2)
        | exact prefixed_step _ _ _ _ h2
        | exact h2
  exact prefixed_step _ _ _ _ h3

/-- The statement `Service.Update` builds is neither statement of the
settlement. -/
theorem builtText_ne (env : Env) (t : model.Task) :
    builtText env t ≠ payBillingQuery ∧ builtText env t ≠ creditQuery := by
  obtain ⟨x, hx⟩ := prefixed_built env t
  have key : ∀ s : String, s.data.take 16 ≠ update.data → ∀ y, update ++ y ≠ s := by
    intro s hs y heq
    apply hs
    rw [← heq]
    simp [String.data_append, update]
  unfold builtText
  rw [hx, String.append_assoc]
  exact ⟨key _ (by decide) _, key _ (by decide) _⟩

/-! ## Claims on `Service.Update`, `Service.Get` and `Service.Delete` -/

/-- C11. Evaluation of `Service.Update` on a closing update whose id matches
no stored task: the lookup fails with `sql: no rows in result set`, nothing
else is done, and the one reply published is `success=true`. -/
theorem Update_close_unknown_id_eval :
    Scenario.created.task.map (fun r => r.ID) = ["t1"] ∧
      Service.getTaskByID (Scenario.env 1000) Scenario.created Scenario.unknownClose.ID =
        Except.error ErrNoRows ∧
      (Service.Update (Scenario.env 1000) Scenario.created "task.update" "r"
        Scenario.unknownClose).published =
        [("r", { Success := true, Message := "", Data := "" })] ∧
      (Service.Update (Scenario.env 1000) Scenario.created "task.update" "r"
        Scenario.unknownClose).log =
        [DbOp.get getTaskQuery [.str "46f5974b-e939-4017-b239-56120c0d00bb"]] :=
  ⟨by decide, rfl, by decide, by decide⟩

theorem len_empty : len "" = 0 := by decide

/-- C12. For a task-update with fee <= 0, empty status, description and
freelancer id, and deadline <= 0, `Service.Update` makes no database call,
leaves the store as it was, and publishes one reply, `success=true`. -/
theorem Update_no_field_noop (env : Env) (db : Store) (subject reply : String)
    (t : model.Task) (hfee : t.Fee ≤ 0) (hst : t.Status = "") (hde : t.Description = "")
    (hfl : t.FreelancerID = "") (hdl : t.Deadline ≤ 0) :
    (Service.Update env db subject reply t).log = [] ∧
      (Service.Update env db subject reply t).db = db ∧
      (Service.Update env db subject reply t).published =
        [(reply, { Success := true, Message := "", Data := "" })] := by
  have hno : ¬ FieldSet t := by
    simp only [FieldSet, hst, hde, hfl, len_empty]
    omega
  rw [Update_noop env db subject reply t hno]
  exact ⟨rfl, rfl, rfl⟩

/-- The payload carrying only the id of task `t1`, on the store holding it. -/
theorem Update_no_field_noop_witness :
    (Service.Update (Scenario.env 1000) Scenario.created "task.update" "r"
        Scenario.idOnly).log = [] ∧
      (Service.Update (Scenario.env 1000) Scenario.created "task.update" "r"
        Scenario.idOnly).db = Scenario.created ∧
      (Service.Update (Scenario.env 1000) Scenario.created "task.update" "r"
        Scenario.idOnly).published =
        [("r", { Success := true, Message := "", Data := "" })] :=
  Update_no_field_noop (Scenario.env 1000) Scenario.created "task.update" "r" Scenario.idOnly
    (by decide) rfl rfl rfl (by decide)

/-- C13. For a task-update with at least one field set, the SET clause
`Service.Update` builds assigns, in this order, fee iff fee > 0, status iff
it is non-empty, description iff it is non-empty, freelancer_id iff it is
non-empty, deadline iff deadline > 0, then updated_at, each bound to the
payload's value (updated_at to the current time), and nothing else; a row it
is applied to changes in these columns only; and this statement is the only
one `Service.Update` ever executes on the task table. -/
theorem Update_assigns_set_fields (env : Env) (db : Store) (subject reply : String)
    (t : model.Task) (hset : FieldSet t) :
    (builtSet env t).sets.map (fun c => (c.1, (builtArgs env t)[c.2 - 1]?)) =
        (setFields env t).map (fun p => (p.1, some p.2)) ∧
      (∀ r, applySets (builtSet env t).sets (builtArgs env t) r = updatedRow t env.now r) ∧
      (∀ r, (updatedRow t env.now r).ID = r.ID ∧
        (updatedRow t env.now r).ClientID = r.ClientID ∧
        (updatedRow t env.now r).CreatedAt = r.CreatedAt ∧
        (updatedRow t env.now r).StartedAt = r.StartedAt ∧
        (updatedRow t env.now r).DeletedAt = r.DeletedAt) ∧
      (∀ q a, DbOp.exec q a ∈ (Service.Update env db subject reply t).log →
        q = payBillingQuery ∨ q = creditQuery ∨
          (q = builtText env t ∧ a = builtArgs env t)) ∧
      (t.Status ≠ model.Closed →
        (Service.Update env db subject reply t).log =
          [DbOp.exec (builtText env t) (builtArgs env t)]) := by
  refine ⟨built_assignments env t, (Update_statement_effect env t).2,
    fun r => ⟨rfl, rfl, rfl, rfl, rfl⟩, Update_exec_cases env db subject reply t, fun hst => ?_⟩
  rw [Update_plain env db subject reply t hset hst]

/-- The payload setting only `fee=99999`: the statement assigns `fee` and
`updated_at`. -/
theorem Update_assigns_set_fields_witness :
    (builtSet (Scenario.env 1000) { Scenario.idOnly with Fee := 99999 }).sets.map
        (fun c => (c.1, (builtArgs (Scenario.env 1000)
          { Scenario.idOnly with Fee := 99999 })[c.2 - 1]?)) =
        [("fee", some (Arg.int 99999)), ("updated_at", some (Arg.nullTime (some 7)))] ∧
      (Service.Update (Scenario.env 1000) Scenario.created "task.update" "r"
        { Scenario.idOnly with Fee := 99999 }).log =
        [DbOp.exec "UPDATE task SET fee=$1, updated_at=$2 WHERE ID=$3"
          [Arg.int 99999, Arg.nullTime (some 7), Arg.str "t1"]] :=
  have h := Update_assigns_set_fields (Scenario.env 1000) Scenario.created "task.update" "r"
    { Scenario.idOnly with Fee := 99999 } (by decide)
  ⟨by rw [h.1]; decide, by rw [h.2.2.2.2 (by decide)]; decide⟩

/-- C14. `Service.Get` and `Service.Delete` publish the single reply
`success=false`, "invalid ID", without any database call exactly when the id
is not 36 bytes long; with a 36-byte id each makes its one database call. -/
theorem Get_Delete_invalid_id_iff (env : Env) (db : Store) (subject reply id : String) :
    (((Service.Get env db subject reply id).published =
          [(reply, { Success := false, Message := "invalid ID", Data := "" })] ∧
        (Service.Get env db subject reply id).log = []) ↔ len id ≠ 36) ∧
      (((Service.Delete env db subject reply id).published =
          [(reply, { Success := false, Message := "invalid ID", Data := "" })] ∧
        (Service.Delete env db subject reply id).log = []) ↔ len id ≠ 36) ∧
      (Service.Get env db subject reply id).log =
        (if len id ≠ 36 then [] else [DbOp.get getTaskQuery [.str id]]) ∧
      (Service.Delete env db subject reply id).log =
        (if len id ≠ 36 then [] else [DbOp.exec delS [.time env.now, .str id]]) := by
  have hget : (Service.Get env db subject reply id).log =
      (if len id ≠ 36 then [] else [DbOp.get getTaskQuery [.str id]]) := by
    unfold Service.Get
    dsimp only
    repeat' split
    all_goals rfl
  have hdel : (Service.Delete env db subject reply id).log =
      (if len id ≠ 36 then [] else [DbOp.exec delS [.time env.now, .str id]]) := by
    unfold Service.Delete
    dsimp only
    repeat' split
    all_goals rfl
  refine ⟨⟨fun h => ?_, fun h => ?_⟩, ⟨fun h => ?_, fun h => ?_⟩, hget, hdel⟩
  · intro h36
    have := h.2
    rw [hget] at this
    simp [h36] at this
  · simp [Service.Get, h, failMsg, model.ErrInvalidID]
  · intro h36
    have := h.2
    rw [hdel] at this
    simp [h36] at this
  · simp [Service.Delete, h, failMsg, model.ErrInvalidID]

/-- C15. Evaluation of `Service.Update` on a task-update with an empty id and
a description: it executes its UPDATE statement with the empty id bound to
the WHERE clause and replies `success=true`, where `Service.Get` and
`Service.Delete` answer the same id with "invalid ID" and make no database
call. -/
theorem Update_accepts_empty_id :
    len Scenario.emptyIdEdit.ID ≠ 36 ∧
      (Service.Update (Scenario.env 1000) Scenario.created "task.update" "r"
        Scenario.emptyIdEdit).published =
        [("r", { Success := true, Message := "", Data := "" })] ∧
      (Service.Update (Scenario.env 1000) Scenario.created "task.update" "r"
        Scenario.emptyIdEdit).log =
        [DbOp.exec "UPDATE task SET description=$1, updated_at=$2 WHERE ID=$3"
          [Arg.str "bar foo", Arg.nullTime (some 7), Arg.str ""]] ∧
      ((Service.Get (Scenario.env 1000) Scenario.created "task.get" "r"
          Scenario.emptyIdEdit.ID).published =
          [("r", { Success := false, Message := "invalid ID", Data := "" })] ∧
        (Service.Get (Scenario.env 1000) Scenario.created "task.get" "r"
          Scenario.emptyIdEdit.ID).log = []) ∧
      ((Service.Delete (Scenario.env 1000) Scenario.created "task.delete" "r"
          Scenario.emptyIdEdit.ID).published =
          [("r", { Success := false, Message := "invalid ID", Data := "" })] ∧
        (Service.Delete (Scenario.env 1000) Scenario.created "task.delete" "r"
          Scenario.emptyIdEdit.ID).log = []) := by
  decide

/-- C16 (counterexample). A task-update setting a description on an id that
matches no task row: the store runs the statement without error, no row
changes, and the reply is `success=true`. -/
theorem Update_unknown_id_succeeds :
    Scenario.created.task.map (fun r => r.ID) = ["t1"] ∧
      Scenario.unknownEdit.ID = "46f5974b-e939-4017-b239-56120c0d00bb" ∧
      (Service.Update (Scenario.env 1000) Scenario.created "task.update" "r"
        Scenario.unknownEdit).db = Scenario.created ∧
      (Service.Update (Scenario.env 1000) Scenario.created "task.update" "r"
        Scenario.unknownEdit).published =
        [("r", { Success := true, Message := "", Data := "" })] := by
  decide

/-- C16 (amended). For every task-update with a field set and a status other
than Closed whose id matches no task row, when the store runs the UPDATE
statement without error, no row changes and the one reply published is
`success=true`: `Service.Update` does not read the number of rows affected. -/
theorem Update_no_match_succeeds (env : Env) (db : Store) (subject reply : String)
    (t : model.Task) (hset : FieldSet t) (hst : t.Status ≠ model.Closed)
    (hrun : env.updateTask = Fault.none) (hnone : ∀ r ∈ db.task, r.ID ≠ t.ID) :
    (Service.Update env db subject reply t).db = db ∧
      (Service.Update env db subject reply t).published =
        [(reply, { Success := true, Message := "", Data := "" })] := by
  rw [Update_plain env db subject reply t hset hst, hrun, updateTask_ran]
  refine ⟨?_, rfl⟩
  have : (db.task.map fun r => if r.ID = t.ID then updatedRow t env.now r else r) = db.task := by
    conv_rhs => rw [← List.map_id db.task]
    apply List.map_congr_left
    intro r hr
    simp [hnone r hr]
  simp only [this]

/-- The description update on an id that matches no task row. -/
theorem Update_no_match_succeeds_witness :
    (Service.Update (Scenario.env 1000) Scenario.created "task.update" "r"
        Scenario.unknownEdit).db = Scenario.created ∧
      (Service.Update (Scenario.env 1000) Scenario.created "task.update" "r"
        Scenario.unknownEdit).published =
        [("r", { Success := true, Message := "", Data := "" })] :=
  Update_no_match_succeeds (Scenario.env 1000) Scenario.created "task.update" "r"
    Scenario.unknownEdit (by decide) (by decide) rfl (by decide)

/-- C17. Evaluation of `Service.Update` on the close of a task that has no
billing row: the settlement returns `sql: no rows in result set`, and two
replies are published to the reply address, first `success=false` with that
message, then `success=true`. -/
theorem Update_settlement_error_two_replies :
    Scenario.unbilled.task.map (fun r => r.ID) = ["t1"] ∧
      Scenario.unbilled.billing = [] ∧
      (Service.transferFunds (Scenario.env 1000) Scenario.unbilled Scenario.assignedTask).err =
        some "sql: no rows in result set" ∧
      (Service.Update (Scenario.env 1000) Scenario.unbilled "task.update" "r"
        Scenario.closing).published =
        [("r", { Success := false, Message := "sql: no rows in result set", Data := "" }),
         ("r", { Success := true, Message := "", Data := "" })] := by
  decide

/-- C18. For a task-update with status Closed, when the task lookup or the
settlement returns an error, `Service.Update` returns before its own
`db.Exec`: the committed store is the one before the request, the only
statements executed are those of the settlement, on the billing and the
freelancer tables, and the UPDATE of the task row is not among them. -/
theorem Update_close_error_no_task_update (env : Env) (db : Store) (subject reply : String)
    (t : model.Task) (hst : t.Status = model.Closed)
    (herr : (∃ e, Service.getTaskByID env db t.ID = Except.error e) ∨
      (∃ T e, Service.getTaskByID env db t.ID = Except.ok T ∧
        (Service.transferFunds env db T).err = some e)) :
    (Service.Update env db subject reply t).db = db ∧
      (∀ q a, DbOp.exec q a ∈ (Service.Update env db subject reply t).log →
        q = payBillingQuery ∨ q = creditQuery) ∧
      (∀ a, DbOp.exec (builtText env t) a ∉ (Service.Update env db subject reply t).log) := by
  have hlog : ∀ q a, DbOp.exec q a ∈ (Service.Update env db subject reply t).log →
      q = payBillingQuery ∨ q = creditQuery := by
    rw [Update_closed env db subject reply t hst]
    rcases herr with ⟨e, hg⟩ | ⟨T, e, hg, he⟩
    · rw [hg]
      simp
    · rw [hg]
      dsimp only
      rw [he]
      intro q a h
      simp only [List.mem_cons, reduceCtorEq, false_or] at h
      exact transferFunds_log_exec env db T q a h
  refine ⟨?_, hlog, fun a h => ?_⟩
  · rw [Update_closed env db subject reply t hst]
    rcases herr with ⟨e, hg⟩ | ⟨T, e, hg, he⟩
    · rw [hg]
    · rw [hg]
      dsimp only
      rw [he]
      exact transferFunds_err_db env db T e he
  · rcases hlog _ a h with h' | h'
    · exact (builtText_ne env t).1 h'
    · exact (builtText_ne env t).2 h'

/-- The close of a task that has no billing row. -/
theorem Update_close_error_no_task_update_witness :
    (Service.Update (Scenario.env 1000) Scenario.unbilled "task.update" "r"
        Scenario.closing).db = Scenario.unbilled :=
  (Update_close_error_no_task_update (Scenario.env 1000) Scenario.unbilled "task.update" "r"
    Scenario.closing rfl
    (Or.inr ⟨Scenario.assignedTask, "sql: no rows in result set", rfl, by decide⟩)).1

/-- C19. Evaluation of `Service.transferFunds` when a write reports zero rows
affected and no error.  For the update of the billing row and for the update
of the freelancer balance alike, the transaction is rolled back and nothing
is committed, but the error returned is nil; `Service.Update` then goes on,
marks the task Closed and replies `success=true` although the billing row is
still Locked and the freelancer has not been credited.  A missing billing
row does make `transferFunds` return an error. -/
theorem transferFunds_zero_rows_eval :
    ((Service.transferFunds (Scenario.envPayNoRows 1000) Scenario.assigned
          Scenario.assignedTask).err = none ∧
      (Service.transferFunds (Scenario.envPayNoRows 1000) Scenario.assigned
          Scenario.assignedTask).db = Scenario.assigned ∧
      (Service.transferFunds (Scenario.envPayNoRows 1000) Scenario.assigned
          Scenario.assignedTask).log.getLast? = some DbOp.rollback) ∧
    ((Service.transferFunds (Scenario.envCreditNoRows 1000) Scenario.assigned
          Scenario.assignedTask).err = none ∧
      (Service.transferFunds (Scenario.envCreditNoRows 1000) Scenario.assigned
          Scenario.assignedTask).db = Scenario.assigned ∧
      (Service.transferFunds (Scenario.envCreditNoRows 1000) Scenario.assigned
          Scenario.assignedTask).log.getLast? = some DbOp.rollback) ∧
    ((Service.Update (Scenario.envPayNoRows 1000) Scenario.assigned "task.update" "r"
          Scenario.closing).published =
        [("r", { Success := true, Message := "", Data := "" })] ∧
      (Service.Update (Scenario.envPayNoRows 1000) Scenario.assigned "task.update" "r"
          Scenario.closing).db.task.map (fun r => r.Status) = [model.Closed] ∧
      (Service.Update (Scenario.envPayNoRows 1000) Scenario.assigned "task.update" "r"
          Scenario.closing).db.billing.map (fun r => r.Status) = [model.Locked] ∧
      (Service.Update (Scenario.envPayNoRows 1000) Scenario.assigned "task.update" "r"
          Scenario.closing).db.freelancer.map (fun f => f.Balance) = [none]) ∧
    (Service.transferFunds (Scenario.env 1000) Scenario.unbilled Scenario.assignedTask).err =
      some "sql: no rows in result set" := by
  decide

/-- C20. `Service.Update` has no transition table.  For every non-empty
status `s` the statement it builds assigns the status column, bound to `s`
as received, and a row it is applied to gets status `s` whatever its status
was.  For every `s` other than Closed (Abandoned included) the run makes one
database call, the UPDATE of the task row, and leaves the client, the
freelancer and the billing tables as they were. -/
theorem Update_status_verbatim (env : Env) (db : Store) (subject reply : String)
    (t : model.Task) (hlen : len t.Status > 0) :
    ("status", some (Arg.str t.Status)) ∈
        (builtSet env t).sets.map (fun c => (c.1, (builtArgs env t)[c.2 - 1]?)) ∧
      (∀ r, (applySets (builtSet env t).sets (builtArgs env t) r).Status = t.Status) ∧
      (t.Status ≠ model.Closed →
        (Service.Update env db subject reply t).log =
            [DbOp.exec (builtText env t) (builtArgs env t)] ∧
          (Service.Update env db subject reply t).db.client = db.client ∧
          (Service.Update env db subject reply t).db.freelancer = db.freelancer ∧
          (Service.Update env db subject reply t).db.billing = db.billing ∧
          (env.updateTask = Fault.none →
            (Service.Update env db subject reply t).db.task =
              db.task.map fun r => if r.ID = t.ID then updatedRow t env.now r else r)) := by
  have hset : FieldSet t := Or.inr (Or.inl hlen)
  refine ⟨?_, fun r => ?_, fun hst => ?_⟩
  · rw [built_assignments env t]
    simp [setFields, hlen]
  · have hrow : applySets (builtSet env t).sets (builtArgs env t) r = updatedRow t env.now r :=
      (Update_statement_effect env t).2 r
    rw [hrow]
    simp [updatedRow, hlen]
  · rw [Update_plain env db subject reply t hset hst]
    have ht := updateTask_other_tables env.updateTask (builtSet env t).sets
      (builtSet env t).position (builtArgs env t) db
    refine ⟨rfl, ht.1, ht.2.1, ht.2.2, fun hrun => ?_⟩
    dsimp only
    rw [hrun, updateTask_ran]

/-- A task-update to status Abandoned, and one to a status that is not
declared, on the closed task `t1`. -/
theorem Update_status_verbatim_witness :
    (Service.Update (Scenario.env 1000) Scenario.closedOnce.db "task.update" "r"
        { Scenario.idOnly with Status := model.Abandoned }).db.task.map (fun r => r.Status) =
        [model.Abandoned] ∧
      (Service.Update (Scenario.env 1000) Scenario.closedOnce.db "task.update" "r"
        { Scenario.idOnly with Status := "no such status" }).log =
        [DbOp.exec "UPDATE task SET status=$1, updated_at=$2 WHERE ID=$3"
          [Arg.str "no such status", Arg.nullTime (some 7), Arg.str "t1"]] :=
  have h₁ := Update_status_verbatim (Scenario.env 1000) Scenario.closedOnce.db "task.update" "r"
    { Scenario.idOnly with Status := model.Abandoned } (by decide)
  have h₂ := Update_status_verbatim (Scenario.env 1000) Scenario.closedOnce.db "task.update" "r"
    { Scenario.idOnly with Status := "no such status" } (by decide)
  ⟨by rw [(h₁.2.2 (by decide)).2.2.2.2 rfl]; decide, by rw [(h₂.2.2 (by decide)).1]; decide⟩

/-! ## Further claims on `Service.New`, `Service.Update` and `Service.List` -/

/-- A settlement leaves the task table as it was. -/
theorem transferFunds_task (env : Env) (db : Store) (T : model.Task) :
    (Service.transferFunds env db T).db.task = db.task := by
  unfold Service.transferFunds
  dsimp only
  repeat' split
  all_goals first
    | rfl
    | (unfold commitTx exec payBillingStmt creditStmt
       cases env.commit <;> cases env.payBilling <;> cases env.credit <;> rfl)

/-- The task table after any run of `Service.Update`: untouched, or with the
rows of the payload's id updated. -/
theorem Update_task_table (env : Env) (db : Store) (subject reply : String) (t : model.Task) :
    (Service.Update env db subject reply t).db.task = db.task ∨
      (Service.Update env db subject reply t).db.task =
        db.task.map fun r => if r.ID = t.ID then updatedRow t env.now r else r := by
  have hexec : ∀ s : Store,
      (exec env.updateTask
        (updateTaskStmt (builtSet env t).sets (builtSet env t).position (builtArgs env t))
        s).1.task = s.task ∨
      (exec env.updateTask
        (updateTaskStmt (builtSet env t).sets (builtSet env t).position (builtArgs env t))
        s).1.task = s.task.map fun r => if r.ID = t.ID then updatedRow t env.now r else r := by
    intro s
    have hran := updateTask_ran env t s
    cases hf : env.updateTask
    · right
      rw [hran]
    · left
      rfl
    · right
      have : (exec (Fault.rowsErr ‹String›)
          (updateTaskStmt (builtSet env t).sets (builtSet env t).position (builtArgs env t))
          s).1 = (exec Fault.none
          (updateTaskStmt (builtSet env t).sets (builtSet env t).position (builtArgs env t))
          s).1 := rfl
      rw [this, hran]
    · left
      rfl
  by_cases hset : FieldSet t
  · by_cases hst : t.Status = model.Closed
    · rw [Update_closed env db subject reply t hst]
      cases hg : Service.getTaskByID env db t.ID with
      | error e => exact Or.inl rfl
      | ok T =>
        dsimp only
        cases he : (Service.transferFunds env db T).err with
        | some e =>
          left
          exact transferFunds_task env db T
        | none =>
          dsimp only
          rw [rest_built env _ reply t _ none hset]
          have := hexec (Service.transferFunds env db T).db
          rw [transferFunds_task env db T] at this
          exact this
    · rw [Update_plain env db subject reply t hset hst]
      exact hexec db
  · rw [Update_noop env db subject reply t hset]
    exact Or.inl rfl

/-- C22 (counterexample). Task `t1` is stored with a fee of 100; a task-update
with fee 50 replies success and the stored fee is 50 afterwards. -/
theorem Update_can_lower_fee :
    Scenario.created.task.map (fun r => (r.ID, r.Fee)) = [("t1", 100)] ∧
      (Service.Update (Scenario.env 1000) Scenario.created "task.update" "r"
        { Scenario.idOnly with Fee := 50 }).published =
        [("r", { Success := true, Message := "", Data := "" })] ∧
      (Service.Update (Scenario.env 1000) Scenario.created "task.update" "r"
        { Scenario.idOnly with Fee := 50 }).db.task.map (fun r => (r.ID, r.Fee)) =
        [("t1", 50)] ∧
      (50 : Int) < 100 := by
  decide

/-- C22 (amended). The stored fee follows the payload: after every task-update
the task table is either untouched or has each row of the payload's id
updated, and the fee of an updated row is the payload's fee when that is
positive, lower or higher than before, and the fee it had otherwise; a
task-update whose fee is not positive changes no stored fee. -/
theorem Update_fee_follows_payload (env : Env) (db : Store) (subject reply : String)
    (t : model.Task) :
    ((Service.Update env db subject reply t).db.task = db.task ∨
        (Service.Update env db subject reply t).db.task =
          db.task.map fun r => if r.ID = t.ID then updatedRow t env.now r else r) ∧
      (∀ r, (updatedRow t env.now r).Fee = if t.Fee > 0 then t.Fee else r.Fee) ∧
      (t.Fee ≤ 0 →
        (Service.Update env db subject reply t).db.task.map (fun r => r.Fee) =
          db.task.map (fun r => r.Fee)) := by
  refine ⟨Update_task_table env db subject reply t, fun r => rfl, fun hfee => ?_⟩
  rcases Update_task_table env db subject reply t with h | h
  · rw [h]
  · rw [h, List.map_map]
    apply List.map_congr_left
    intro r _
    have hn : ¬ t.Fee > 0 := by omega
    simp only [Function.comp]
    split
    · simp [updatedRow, hn]
    · rfl

/-- The listing query returns the client's live tasks, each once, by
ascending creation time. -/
theorem selectTasks_spec (c : String) (db : Store) :
    (selectTasks c db).Perm
        (db.task.filter fun r => r.ClientID = c ∧ r.DeletedAt = none) ∧
      (selectTasks c db).Sorted (fun a b => a.CreatedAt ≤ b.CreatedAt) := by
  haveI : IsTotal model.Task (fun a b => a.CreatedAt ≤ b.CreatedAt) :=
    ⟨fun a b => Nat.le_total a.CreatedAt b.CreatedAt⟩
  haveI : IsTrans model.Task (fun a b => a.CreatedAt ≤ b.CreatedAt) :=
    ⟨fun _ _ _ h₁ h₂ => Nat.le_trans h₁ h₂⟩
  exact ⟨List.perm_insertionSort _ _, List.sorted_insertionSort _ _⟩

/-- C23. When the store read and the serialization succeed, `Service.List`
publishes one reply, `success=true`, whose data is the serialized result of
the listing query for the client id; that result holds exactly the stored
tasks with this client id and no `deleted_at`, each as often as it is
stored, in ascending order of `created_at`. -/
theorem List_replies_client_tasks (env : Env) (db : Store) (subject reply c d : String)
    (hread : env.listTasks = none) (hser : env.marshalTasks (selectTasks c db) = Except.ok d) :
    (Service.List env db subject reply c).published =
        [(reply, { Success := true, Message := "", Data := d })] ∧
      (selectTasks c db).Perm
        (db.task.filter fun r => r.ClientID = c ∧ r.DeletedAt = none) ∧
      (∀ r, r ∈ selectTasks c db ↔ r ∈ db.task ∧ r.ClientID = c ∧ r.DeletedAt = none) ∧
      (selectTasks c db).Sorted (fun a b => a.CreatedAt ≤ b.CreatedAt) ∧
      (Service.List env db subject reply c).db = db := by
  have hs := selectTasks_spec c db
  refine ⟨?_, hs.1, fun r => ?_, hs.2, ?_⟩
  · simp [Service.List, hread, hser]
  · rw [hs.1.mem_iff]
    simp
  · simp [Service.List, hread, hser]

/-- The tasks of client `c1` in a store that also holds a soft-deleted task
of `c1` and a task of `c2`. -/
theorem List_replies_client_tasks_witness :
    (Service.List (Scenario.env 1000) Scenario.listed "task.list" "r" "c1").published =
        [("r", { Success := true, Message := "", Data := "" })] ∧
      (selectTasks "c1" Scenario.listed).map (fun r => (r.ID, r.CreatedAt)) =
        [("t1", 1), ("t2", 5)] :=
  ⟨(List_replies_client_tasks (Scenario.env 1000) Scenario.listed "task.list" "r" "c1" ""
      rfl rfl).1, by decide⟩

/-- The fee of task `t1` is raised to 99999, then a payload without a fee
leaves it. -/
theorem Update_fee_follows_payload_witness :
    (Service.Update (Scenario.env 1000) Scenario.created "task.update" "r"
        { Scenario.idOnly with Fee := 50 }).db.task =
        Scenario.created.task.map
          (fun r => if r.ID = "t1"
            then updatedRow { Scenario.idOnly with Fee := 50 } 7 r else r) ∧
      (Service.Update (Scenario.env 1000) Scenario.repriced "task.update" "r"
        { Scenario.idOnly with Description := "bar" }).db.task.map (fun r => r.Fee) =
        Scenario.repriced.task.map (fun r => r.Fee) :=
  ⟨by decide,
   (Update_fee_follows_payload (Scenario.env 1000) Scenario.repriced "task.update" "r"
      { Scenario.idOnly with Description := "bar" }).2.2 (by decide)⟩

/-- The store `Service.New` commits when the lookup, the guard and every
store step go through. -/
theorem New_committed (env : Env) (db : Store) (subject reply : String)
    (t : model.Task) (client : model.Client) (hlook : LookupOK env t client)
    (hfunds : 0 ≤ subInt64 client.Balance t.Fee)
    (hbegin : env.begin = none) (hdebit : env.withdraw = .none)
    (hrow : ∃ c ∈ db.client, c.ID = client.ID)
    (hlock : env.lock = .none) (hinsert : env.insertTask = .none)
    (hcommit : env.commit = none) :
    (Service.New env db subject reply t).db =
        { client := db.client.map fun c =>
            if c.ID = client.ID then { c with Balance := subInt64 client.Balance t.Fee } else c
          freelancer := db.freelancer
          billing := db.billing ++
            [{ ID := env.newID, ClientID := t.ClientID, FreelancerID := none, PaidDate := none,
               Status := model.Locked, Amount := t.Fee, TaskID := t.ID }]
          task := db.task ++
            [{ t with StartedAt := none, DeletedAt := none, UpdatedAt := none }] } ∧
      (Service.New env db subject reply t).published = [(reply, okMsg)] := by
  obtain ⟨msg, hreq, hs, hdec⟩ := hlook
  have hcount : ¬ List.countP (fun c => decide (c.ID = client.ID)) db.client = 0 := by
    obtain ⟨c, hc, hid⟩ := hrow
    have : 0 < List.countP (fun c => decide (c.ID = client.ID)) db.client :=
      List.countP_pos_iff.mpr ⟨c, hc, by simpa using hid⟩
    omega
  simp [Service.New, hreq, hs, hdec, not_lt.mpr hfunds, hbegin, Service.New.debit,
    Service.New.escrow, Service.New.create, exec, hdebit, hlock, hinsert, commitTx, hcommit,
    withdrawFundsStmt, lockFundsStmt, insertTaskStmt, hcount]

/-- C25 (counterexample). Create-task requests with fee -50 and with fee 0,
against a replied and stored balance of 1000: both reply success; the debit,
the escrow row and the task row are committed; with fee -50 the client's
balance afterwards is 1050. -/
theorem New_commits_nonpositive_fee :
    ((Service.New (Scenario.env 1000) (Scenario.db 1000) "task.add" "r"
          (Scenario.newTask (-50))).published =
        [("r", { Success := true, Message := "", Data := "" })] ∧
      (Service.New (Scenario.env 1000) (Scenario.db 1000) "task.add" "r"
          (Scenario.newTask (-50))).db.client.map (fun c => c.Balance) = [1050] ∧
      (Service.New (Scenario.env 1000) (Scenario.db 1000) "task.add" "r"
          (Scenario.newTask (-50))).db.billing.map (fun r => (r.Status, r.Amount)) =
        [(model.Locked, -50)] ∧
      (Service.New (Scenario.env 1000) (Scenario.db 1000) "task.add" "r"
          (Scenario.newTask (-50))).db.task.map (fun r => r.Fee) = [-50] ∧
      (1000 : Int) < 1050) ∧
    ((Service.New (Scenario.env 1000) (Scenario.db 1000) "task.add" "r"
          (Scenario.newTask 0)).published =
        [("r", { Success := true, Message := "", Data := "" })] ∧
      (Service.New (Scenario.env 1000) (Scenario.db 1000) "task.add" "r"
          (Scenario.newTask 0)).db.billing.map (fun r => (r.Status, r.Amount)) =
        [(model.Locked, 0)] ∧
      (Service.New (Scenario.env 1000) (Scenario.db 1000) "task.add" "r"
          (Scenario.newTask 0)).db.task.map (fun r => r.Fee) = [0]) := by
  decide

/-- C25 (amended). `Service.New` does not look at the sign of the fee: for a
create-task request whose fee is zero or negative, when the guard
`client.Balance - t.Fee < 0` is false and every store step succeeds, the
debit, the escrow row (with the fee as amount) and the task row are
committed and the reply is `success=true`; the balance written is the
replied balance minus the fee, which is not lower than the replied balance
when the difference is representable. -/
theorem New_nonpositive_fee_commits (env : Env) (db : Store) (subject reply : String)
    (t : model.Task) (client : model.Client) (hfee : t.Fee ≤ 0)
    (hlook : LookupOK env t client) (hfunds : 0 ≤ subInt64 client.Balance t.Fee)
    (hbegin : env.begin = none) (hdebit : env.withdraw = .none)
    (hrow : ∃ c ∈ db.client, c.ID = client.ID)
    (hlock : env.lock = .none) (hinsert : env.insertTask = .none)
    (hcommit : env.commit = none) :
    (Service.New env db subject reply t).db.client =
        (db.client.map fun c =>
          if c.ID = client.ID then { c with Balance := subInt64 client.Balance t.Fee } else c) ∧
      (isInt64 (client.Balance - t.Fee) →
        subInt64 client.Balance t.Fee = client.Balance - t.Fee ∧
          client.Balance ≤ subInt64 client.Balance t.Fee) ∧
      (Service.New env db subject reply t).db.billing.map (fun r => r.Amount) =
        db.billing.map (fun r => r.Amount) ++ [t.Fee] ∧
      (Service.New env db subject reply t).db.task.map (fun r => r.Fee) =
        db.task.map (fun r => r.Fee) ++ [t.Fee] ∧
      (Service.New env db subject reply t).published =
        [(reply, { Success := true, Message := "", Data := "" })] := by
  have h := New_committed env db subject reply t client hlook hfunds hbegin hdebit hrow hlock
    hinsert hcommit
  rw [h.1, h.2]
  refine ⟨rfl, fun hr => ?_, by simp, by simp, rfl⟩
  have : subInt64 client.Balance t.Fee = client.Balance - t.Fee := wrapInt64_of_isInt64 hr
  rw [this]
  exact ⟨rfl, by omega⟩

/-- A fee of -50 against a replied and stored balance of 1000. -/
theorem New_nonpositive_fee_commits_witness :
    (Service.New (Scenario.env 1000) (Scenario.db 1000) "task.add" "r"
        (Scenario.newTask (-50))).db.client.map (fun c => c.Balance) = [subInt64 1000 (-50)] ∧
      (Service.New (Scenario.env 1000) (Scenario.db 1000) "task.add" "r"
        (Scenario.newTask (-50))).db.billing.map (fun r => r.Amount) = [-50] :=
  have h := New_nonpositive_fee_commits (Scenario.env 1000) (Scenario.db 1000) "task.add" "r"
    (Scenario.newTask (-50)) { ID := "c1", Email := "", Balance := 1000, DeletedAt := none }
    (by decide) ⟨_, rfl, rfl, rfl⟩ (by decide) rfl rfl ⟨_, List.mem_singleton.mpr rfl, rfl⟩
    rfl rfl rfl
  ⟨by rw [h.1]; decide, by rw [h.2.2.1]; decide⟩

/-- C26 (counterexample). Task `t1` is stored with freelancer `f1`; the closing
update carries freelancer id `f2` and replies success: the billing row
records `f1`, the balance of `f1` is credited, and the task row holds `f2`. -/
theorem close_with_other_freelancer :
    Scenario.assigned.task.map (fun r => (r.ID, r.FreelancerID)) = [("t1", "f1")] ∧
      (Service.Update (Scenario.env 1000) Scenario.assigned "task.update" "r"
        Scenario.closingOther).published =
        [("r", { Success := true, Message := "", Data := "" })] ∧
      (Service.Update (Scenario.env 1000) Scenario.assigned "task.update" "r"
        Scenario.closingOther).db.billing.map (fun r => (r.Status, r.FreelancerID)) =
        [(model.Paid, some "f1")] ∧
      (Service.Update (Scenario.env 1000) Scenario.assigned "task.update" "r"
        Scenario.closingOther).db.freelancer.map (fun f => (f.ID, f.Balance)) =
        [("f1", some 100)] ∧
      (Service.Update (Scenario.env 1000) Scenario.assigned "task.update" "r"
        Scenario.closingOther).db.task.map (fun r => (r.Status, r.FreelancerID)) =
        [(model.Closed, "f2")] := by
  decide

/-- C26 (amended). After every successful task-update with status Closed, the
freelancer id recorded on the billing row and the id of the freelancer rows
credited are both the freelancer id the task row held before the update;
the freelancer id on the task row afterwards is that same id when the
payload carries no freelancer id, and the payload's freelancer id when it
carries one. -/
theorem Update_close_freelancer_ids (env : Env) (db : Store) (subject reply : String)
    (t T : model.Task) (E : BillingRow) (F : model.Freelancer)
    (hst : t.Status = model.Closed) (hsteps : CloseStepsOK env)
    (hT : db.task.find? (fun r => r.ID = t.ID) = some T)
    (hE : db.billing.find? (fun r => r.TaskID = T.ID) = some E)
    (hF : db.freelancer.find? (fun f => f.ID = T.FreelancerID) = some F) :
    (∀ r ∈ (Service.Update env db subject reply t).db.billing,
        r.ID = E.ID → r.FreelancerID = some T.FreelancerID) ∧
      ((Service.Update env db subject reply t).db.freelancer =
        db.freelancer.map fun f =>
          if f.ID = T.FreelancerID then
            { f with Balance := some (addInt64 (F.Balance.getD 0) T.Fee) }
          else f) ∧
      ((Service.Update env db subject reply t).db.task =
        db.task.map fun r => if r.ID = t.ID then updatedRow t env.now r else r) ∧
      (updatedRow t env.now T).FreelancerID =
        (if len t.FreelancerID > 0 then t.FreelancerID else T.FreelancerID) := by
  obtain ⟨hget, hbegin, hsb, hpay, hsf, hcredit, hcommit, hupd⟩ := hsteps
  have h := Update_close_ok subject reply hst hget hT hbegin hsb hE
    hpay hsf hF hcredit hcommit hupd
  rw [h.1]
  refine ⟨fun r hr hid => ?_, rfl, rfl, rfl⟩
  simp only [List.mem_map] at hr
  obtain ⟨r0, -, hr0⟩ := hr
  by_cases h0 : r0.ID = E.ID
  · simp only [h0, if_true] at hr0
    rw [← hr0]
    rfl
  · simp only [h0, if_false] at hr0
    rw [← hr0] at hid
    exact absurd hid h0

/-- The close of task `t1` by a payload that carries freelancer id `f2`. -/
theorem Update_close_freelancer_ids_witness :
    (Service.Update (Scenario.env 1000) Scenario.assigned "task.update" "r"
        Scenario.closingOther).db.freelancer.map (fun f => (f.ID, f.Balance)) =
        [("f1", some 100)] ∧
      (updatedRow Scenario.closingOther 7 Scenario.assignedTask).FreelancerID = "f2" :=
  have h := Update_close_freelancer_ids (Scenario.env 1000) Scenario.assigned "task.update" "r"
    Scenario.closingOther Scenario.assignedTask
    { ID := "b1", ClientID := "c1", FreelancerID := none, PaidDate := none,
      Status := model.Locked, Amount := 100, TaskID := "t1" }
    { ID := "f1", Description := none, Details := none, Email := "", Balance := none,
      DeletedAt := none }
    rfl ⟨rfl, rfl, rfl, rfl, rfl, rfl, rfl, rfl⟩ (by decide) (by decide) (by decide)
  ⟨by rw [h.2.1]; decide, h.2.2.2.trans (by decide)⟩

/-- C27. Evaluation of `Service.New` when the task INSERT returns no error and
`RowsAffected` reports zero rows with a nil error: the transaction is rolled
back and the handler then calls `Error()` on the nil error, so no reply is
published. -/
theorem New_insert_zero_rows_eval :
    (Service.New.create (Scenario.envInsertNoRows 1000) (Scenario.db 1000)
        (Scenario.newTask 100)).2 = { err := none, rows := 0, rowsErr := none } ∧
      (Service.New (Scenario.envInsertNoRows 1000) (Scenario.db 1000) "task.add" "r"
        (Scenario.newTask 100)).ret = Ret.nilDeref ∧
      (Service.New (Scenario.envInsertNoRows 1000) (Scenario.db 1000) "task.add" "r"
        (Scenario.newTask 100)).published = [] ∧
      (Service.New (Scenario.envInsertNoRows 1000) (Scenario.db 1000) "task.add" "r"
        (Scenario.newTask 100)).log.getLast? = some DbOp.rollback ∧
      (Service.New (Scenario.envInsertNoRows 1000) (Scenario.db 1000) "task.add" "r"
        (Scenario.newTask 100)).db = Scenario.db 1000 := by
  decide

/-! ## The billing table over sequences of requests -/

theorem debit_billing (env : Env) (s : Store) (c : model.Client) (t : model.Task) :
    (Service.New.debit env s c t).1.billing = s.billing := by
  unfold Service.New.debit exec withdrawFundsStmt
  cases env.withdraw <;> rfl

theorem create_billing (env : Env) (s : Store) (t : model.Task) :
    (Service.New.create env s t).1.billing = s.billing := by
  unfold Service.New.create exec insertTaskStmt
  cases env.insertTask <;> rfl

theorem escrow_billing (env : Env) (s : Store) (t : model.Task) :
    BillingStep s.billing (Service.New.escrow env s t).1.billing := by
  unfold Service.New.escrow exec lockFundsStmt
  cases env.lock
  · exact Or.inr (Or.inl ⟨_, rfl, rfl⟩)
  · exact Or.inl rfl
  · exact Or.inr (Or.inl ⟨_, rfl, rfl⟩)
  · exact Or.inl rfl

theorem New_billing (env : Env) (db : Store) (subject reply : String) (t : model.Task) :
    BillingStep db.billing (Service.New env db subject reply t).db.billing := by
  unfold Service.New
  dsimp only
  repeat' split
  all_goals first
    | exact Or.inl rfl
    | skip
  rename_i client _ _ _ _ _ _ _ _ _ _ _ _
  unfold commitTx
  cases env.commit
  · dsimp only
    rw [create_billing]
    have := escrow_billing env (Service.New.debit env db client t).1 t
    rw [debit_billing] at this
    exact this
  · exact Or.inl rfl

theorem transferFunds_billing (env : Env) (db : Store) (T : model.Task) :
    BillingStep db.billing (Service.transferFunds env db T).db.billing := by
  unfold Service.transferFunds
  dsimp only
  repeat' split
  all_goals first
    | exact Or.inl rfl
    | skip
  rename_i txID _ _ _ _ _ _ _ _ _ _
  unfold commitTx exec creditStmt payBillingStmt
  cases env.commit <;> cases env.credit <;> cases env.payBilling <;>
    first
      | exact Or.inl rfl
      | exact Or.inr (Or.inr ⟨txID, T.FreelancerID, env.now, rfl⟩)

theorem Update_billing (env : Env) (db : Store) (subject reply : String) (t : model.Task) :
    BillingStep db.billing (Service.Update env db subject reply t).db.billing := by
  by_cases hset : FieldSet t
  · by_cases hst : t.Status = model.Closed
    · rw [Update_closed env db subject reply t hst]
      cases hg : Service.getTaskByID env db t.ID with
      | error e => exact Or.inl rfl
      | ok T =>
        dsimp only
        cases he : (Service.transferFunds env db T).err with
        | some e => exact transferFunds_billing env db T
        | none =>
          dsimp only
          rw [rest_built env _ reply t _ none hset]
          dsimp only
          rw [(updateTask_other_tables _ _ _ _ _).2.2]
          exact transferFunds_billing env db T
    · rw [Update_plain env db subject reply t hset hst]
      dsimp only
      rw [(updateTask_other_tables _ _ _ _ _).2.2]
      exact Or.inl rfl
  · rw [Update_noop env db subject reply t hset]
    exact Or.inl rfl

theorem Delete_billing (env : Env) (db : Store) (subject reply id : String) :
    (Service.Delete env db subject reply id).db.billing = db.billing := by
  unfold Service.Delete
  dsimp only
  repeat' split
  all_goals first
    | rfl
    | (unfold exec deleteTaskStmt
       cases env.deleteTask <;> rfl)

theorem Get_db (env : Env) (db : Store) (subject reply id : String) :
    (Service.Get env db subject reply id).db = db := by
  unfold Service.Get
  dsimp only
  repeat' split
  all_goals rfl

theorem List_db (env : Env) (db : Store) (subject reply c : String) :
    (Service.List env db subject reply c).db = db := by
  unfold Service.List
  dsimp only
  repeat' split
  all_goals rfl

/-- Every request does to the billing table one of the three things of
`BillingStep`. -/
theorem handle_billing (r : Request) (db : Store) :
    BillingStep db.billing (r.handle db).db.billing := by
  cases r with
  | new env subject reply t => exact New_billing env db subject reply t
  | update env subject reply t => exact Update_billing env db subject reply t
  | delete env subject reply id => exact Or.inl (Delete_billing env db subject reply id)
  | get env subject reply id =>
    exact Or.inl (congrArg Store.billing (Get_db env db subject reply id))
  | list env subject reply c =>
    exact Or.inl (congrArg Store.billing (List_db env db subject reply c))

theorem billingEvolved_refl (b : List BillingRow) : BillingEvolved b b := by
  intro i
  cases h : b[i]? <;> simp

theorem billingEvolved_trans {b₁ b₂ b₃ : List BillingRow} (h₁₂ : BillingEvolved b₁ b₂)
    (h₂₃ : BillingEvolved b₂ b₃) : BillingEvolved b₁ b₃ := by
  intro i
  have h1 := h₁₂ i
  have h2 := h₂₃ i
  cases e1 : b₁[i]? <;> cases e2 : b₂[i]? <;> cases e3 : b₃[i]? <;>
    simp only [e1, e2, e3] at h1 h2 ⊢
  all_goals first
    | trivial
    | exact h1.elim
    | exact h2.elim
    | skip
  · rcases h2.2 with h | h
    · rcases h1 with h' | h'
      · exact Or.inl (h.trans h')
      · exact Or.inr (h.trans h')
    · exact Or.inr h
  · refine ⟨h2.1.trans h1.1, ?_⟩
    rcases h2.2 with h | h
    · rcases h1.2 with h' | h'
      · exact Or.inl (h.trans h')
      · exact Or.inr (h.trans h')
    · exact Or.inr h

theorem billingEvolved_of_step {b b' : List BillingRow} (h : BillingStep b b') :
    BillingEvolved b b' := by
  rcases h with h | ⟨row, hrow, h⟩ | ⟨id, fid, now, h⟩
  · rw [h]
    exact billingEvolved_refl b
  · rw [h]
    intro i
    by_cases hi : i < b.length
    · rw [List.getElem?_append_left hi]
      cases e : b[i]? <;> simp
    · have hi' : b.length ≤ i := Nat.le_of_not_lt hi
      rw [List.getElem?_append_right hi', List.getElem?_eq_none hi']
      cases e : [row][i - b.length]? with
      | none => trivial
      | some r' =>
        have : r' = row := by
          have hmem := List.getElem?_mem e
          simpa using hmem
        rw [this]
        exact Or.inl hrow
  · rw [h]
    intro i
    rw [List.getElem?_map]
    cases e : b[i]? with
    | none => trivial
    | some r =>
      simp only [Option.map_some']
      split
      · exact ⟨rfl, Or.inr rfl⟩
      · exact ⟨rfl, Or.inl rfl⟩

/-- C21. Over every sequence of requests to the task service, handled one
after the other from any store: each request leaves the billing table as it
is, or appends one row with status Locked (`Service.New`), or sets rows to
Paid (`Service.transferFunds`); so in the end every billing row of the
start is still there, at its place and with its id, with its status kept or
Paid, and every row added holds Locked or Paid: no row is deleted and no
other status is written. -/
theorem billing_only_locked_paid (rs : List Request) (db : Store) :
    (∀ (r : Request) (s : Store), BillingStep s.billing (r.handle s).db.billing) ∧
      BillingEvolved db.billing (handleAll rs db).billing ∧
      db.billing.length ≤ (handleAll rs db).billing.length := by
  have hev : ∀ (rs : List Request) (db : Store),
      BillingEvolved db.billing (handleAll rs db).billing := by
    intro rs
    induction rs with
    | nil => intro db; exact billingEvolved_refl _
    | cons r rs ih =>
      intro db
      exact billingEvolved_trans (billingEvolved_of_step (handle_billing r db)) (ih (r.handle db).db)
  refine ⟨handle_billing, hev rs db, ?_⟩
  by_contra hlt
  have hlt' : (handleAll rs db).billing.length < db.billing.length := Nat.lt_of_not_le hlt
  have h := hev rs db ((handleAll rs db).billing.length)
  rw [List.getElem?_eq_none (Nat.le_refl _), List.getElem?_eq_getElem hlt'] at h
  exact h


/-! ## The text and the arguments of the statement `Service.Update` builds -/

/-- The text built is the text `alignedText` describes for the columns of
`setFields`. -/
theorem built_text_aligned (env : Env) (t : model.Task) :
    builtText env t = alignedText ((setFields env t).map Prod.fst) := by
  by_cases hfee : t.Fee > 0 <;> by_cases hst : len t.Status > 0 <;>
    by_cases hde : len t.Description > 0 <;> by_cases hfl : len t.FreelancerID > 0 <;>
    by_cases hdl : t.Deadline > 0 <;>
    simp only [builtText, builtSet, setFields, Service.Update.stamp, Service.Update.fields,
      Service.Update.afterStatus, Service.Update.feeStep, Builder.init, Builder.comma,
      Builder.write, Builder.bind, hfee, hst, hde, hfl, hdl, if_true, if_false,
      List.map_append, List.map_cons, List.map_nil, List.nil_append, List.cons_append,
      List.append_nil, Nat.lt_irrefl, Nat.reduceAdd, Nat.reduceLT, gt_iff_lt] <;>
    decide

/-- The arguments built are the values of `setFields` in order, then the id;
the placeholder written for the i-th column is `$i`, and the WHERE clause
takes the next one. -/
theorem built_args_aligned (env : Env) (t : model.Task) :
    builtArgs env t = (setFields env t).map Prod.snd ++ [Arg.str t.ID] ∧
      (builtSet env t).sets =
        ((setFields env t).map Prod.fst).enum.map (fun p => (p.2, p.1 + 1)) ∧
      (builtSet env t).position = (setFields env t).length + 1 := by
  by_cases hfee : t.Fee > 0 <;> by_cases hst : len t.Status > 0 <;>
    by_cases hde : len t.Description > 0 <;> by_cases hfl : len t.FreelancerID > 0 <;>
    by_cases hdl : t.Deadline > 0 <;>
    simp [builtSet, builtArgs, setFields, Service.Update.stamp, Service.Update.fields,
      Service.Update.afterStatus, Service.Update.feeStep, Builder.init, Builder.comma,
      Builder.write, Builder.bind, List.enum, List.enumFrom, hfee, hst, hde, hfl, hdl]

/-- The columns of `setFields` come in the fixed order. -/
theorem setFields_order (env : Env) (t : model.Task) :
    ((setFields env t).map Prod.fst).Sublist
      ["fee", "status", "description", "freelancer_id", "deadline", "updated_at"] := by
  by_cases hfee : t.Fee > 0 <;> by_cases hst : len t.Status > 0 <;>
    by_cases hde : len t.Description > 0 <;> by_cases hfl : len t.FreelancerID > 0 <;>
    by_cases hdl : t.Deadline > 0 <;>
    simp only [setFields, hfee, hst, hde, hfl, hdl, if_true, if_false,
      List.map_append, List.map_cons, List.map_nil, List.nil_append, List.cons_append,
      List.append_nil] <;>
    decide

/-- C24. For every task-update payload with at least one field set, with k
the number of columns assigned (`updated_at` included): the text
`Service.Update` builds is `UPDATE task SET ` followed by these columns in
the fixed order fee, status, description, freelancer_id, deadline,
updated_at, comma-separated, the i-th with placeholder `$i`, and by
`WHERE ID=$(k+1)`; the argument list has k+1 values, the i-th being the
payload's value for the i-th column and the last the payload's id; and when
the status is not Closed this text and these arguments are what
`Service.Update` hands to the store. -/
theorem Update_text_args_aligned (env : Env) (db : Store) (subject reply : String)
    (t : model.Task) (hset : FieldSet t) :
    builtText env t = alignedText ((setFields env t).map Prod.fst) ∧
      ((setFields env t).map Prod.fst).Sublist
        ["fee", "status", "description", "freelancer_id", "deadline", "updated_at"] ∧
      builtArgs env t = (setFields env t).map Prod.snd ++ [Arg.str t.ID] ∧
      (builtArgs env t).length = (setFields env t).length + 1 ∧
      (builtSet env t).sets =
        ((setFields env t).map Prod.fst).enum.map (fun p => (p.2, p.1 + 1)) ∧
      (builtSet env t).position = (setFields env t).length + 1 ∧
      (t.Status ≠ model.Closed →
        (Service.Update env db subject reply t).log =
          [DbOp.exec (alignedText ((setFields env t).map Prod.fst))
            ((setFields env t).map Prod.snd ++ [Arg.str t.ID])]) := by
  have ha := built_args_aligned env t
  refine ⟨built_text_aligned env t, setFields_order env t, ha.1, ?_, ha.2.1, ha.2.2, fun hst => ?_⟩
  · rw [ha.1]
    simp
  · rw [Update_plain env db subject reply t hset hst, built_text_aligned env t, ha.1]

/-- The payload setting a fee, a description and a deadline. -/
theorem Update_text_args_aligned_witness :
    builtText (Scenario.env 1000)
        { Scenario.idOnly with Fee := 99999, Description := "bar foo", Deadline := 3600 } =
        "UPDATE task SET fee=$1, description=$2, deadline=$3, updated_at=$4 WHERE ID=$5" ∧
      builtArgs (Scenario.env 1000)
        { Scenario.idOnly with Fee := 99999, Description := "bar foo", Deadline := 3600 } =
        [Arg.int 99999, Arg.str "bar foo", Arg.int 3600, Arg.nullTime (some 7), Arg.str "t1"] :=
  have h := Update_text_args_aligned (Scenario.env 1000) Scenario.created "task.update" "r"
    { Scenario.idOnly with Fee := 99999, Description := "bar foo", Deadline := 3600 }
    (by decide)
  ⟨h.1.trans (by decide), h.2.2.1.trans (by decide)⟩

/-! ## The guard of `Service.New` and the credit of the settlement at the edge of `int64` -/

/-- C1. Evaluation of `Service.New` at a replied and stored balance of -2 and
a fee of 9223372036854775807.  The balance minus the fee is below zero, but
the `int64` subtraction of the guard wraps around to 9223372036854775807, so
the guard does not fire: the create replies success, that value is written
as the client's balance, and an escrow row and a task row are inserted. -/
theorem New_guard_wraps_low_balance_eval :
    (-2 : Int) - Scenario.maxInt64 < 0 ∧
      isInt64 (-2) ∧ isInt64 Scenario.maxInt64 ∧
      subInt64 (-2) Scenario.maxInt64 = 9223372036854775807 ∧
      (Service.New (Scenario.env (-2)) (Scenario.db (-2)) "task.add" "r"
        (Scenario.newTask Scenario.maxInt64)).published =
        [("r", { Success := true, Message := "", Data := "" })] ∧
      (Service.New (Scenario.env (-2)) (Scenario.db (-2)) "task.add" "r"
        (Scenario.newTask Scenario.maxInt64)).db.client.map (fun c => c.Balance) =
        [9223372036854775807] ∧
      (Service.New (Scenario.env (-2)) (Scenario.db (-2)) "task.add" "r"
        (Scenario.newTask Scenario.maxInt64)).db.billing.map
          (fun r => (r.Status, r.Amount)) = [(model.Locked, 9223372036854775807)] ∧
      (Service.New (Scenario.env (-2)) (Scenario.db (-2)) "task.add" "r"
        (Scenario.newTask Scenario.maxInt64)).db.task.map (fun r => r.ID) = ["t1"] := by
  decide

/-- C2. Evaluation of `Service.New` at a replied and stored balance of
9223372036854775807 and a fee of -1, with no store step failing.  The
balance is at least the fee, but the `int64` subtraction of the guard wraps
around to -9223372036854775808, so the guard fires: the handler returns
"Insufficient funds", makes no database call, inserts nothing and publishes
no reply. -/
theorem New_guard_wraps_high_balance_eval :
    (-1 : Int) ≤ Scenario.maxInt64 ∧
      isInt64 (-1) ∧ isInt64 Scenario.maxInt64 ∧
      subInt64 Scenario.maxInt64 (-1) = -9223372036854775808 ∧
      (Service.New (Scenario.env Scenario.maxInt64) (Scenario.db Scenario.maxInt64)
        "task.add" "r" (Scenario.newTask (-1))).ret = Ret.error "Insufficient funds" ∧
      (Service.New (Scenario.env Scenario.maxInt64) (Scenario.db Scenario.maxInt64)
        "task.add" "r" (Scenario.newTask (-1))).published = [] ∧
      (Service.New (Scenario.env Scenario.maxInt64) (Scenario.db Scenario.maxInt64)
        "task.add" "r" (Scenario.newTask (-1))).log = [] ∧
      (Service.New (Scenario.env Scenario.maxInt64) (Scenario.db Scenario.maxInt64)
        "task.add" "r" (Scenario.newTask (-1))).db = Scenario.db Scenario.maxInt64 := by
  decide

/-- C8 (counterexample). Task `t1` has been closed once, so freelancer `f1`
holds 100, and a task-update has set its fee to 9223372036854775807.  The
next closing update succeeds and the freelancer's balance afterwards is
-9223372036854775709, not 100 plus the fee. -/
theorem close_credit_wraps :
    Scenario.maxPriced.task.map (fun r => (r.ID, r.Fee, r.FreelancerID)) =
        [("t1", 9223372036854775807, "f1")] ∧
      Scenario.maxPriced.freelancer.map (fun f => (f.ID, f.Balance)) = [("f1", some 100)] ∧
      Scenario.maxPriced.billing.map (fun r => r.TaskID) = ["t1"] ∧
      (Service.Update (Scenario.env 1000) Scenario.maxPriced "task.update" "r"
        Scenario.closing).published =
        [("r", { Success := true, Message := "", Data := "" })] ∧
      (Service.Update (Scenario.env 1000) Scenario.maxPriced "task.update" "r"
        Scenario.closing).db.freelancer.map (fun f => f.Balance) =
        [some (-9223372036854775709)] ∧
      (-9223372036854775709 : Int) ≠ 100 + 9223372036854775807 := by
  decide

end task

end MD
